import Mathlib

/-!
go-tcp-server: the enrollment engine and the connection loop.

A shallow embedding of `src/entity.go` and `src/main.go`.

* Go `uint` values are natural numbers.
* The SQLite store behind the global `db` handle is an explicit value of type `DB`
  that every handler receives and returns.  A table is the list of its rows in
  rowid order, which is the order in which SQLite scans it for a `SELECT` without
  `ORDER BY`.  A statement fails only on a constraint violation (the composite primary
  key of `class_students`); failures of the storage engine itself are not modelled.
* Requests are handled one at a time: the interleaving of the statements of several
  connections is not modelled.
* JSON text is not modelled.  A request payload is represented by what the handlers
  decode it to, and `json.Unmarshal` of a message is a parameter of `handleConnection`.
-/

namespace TcpServer

/-! ## entity.go -/

/-- Go struct `Person`. -/
structure Person where
  Id : Nat
  Name : String
  Classes : List Nat
deriving DecidableEq

/-- Go struct `Class`. -/
structure Class where
  Id : Nat
  Name : String
  SchoolId : Nat
  Teacher : Person
  Students : List Person
deriving DecidableEq

/-- Go struct `School`. -/
structure School where
  Id : Nat
  Name : String
  Classes : List Class
deriving DecidableEq

/-- Go struct `AddStudentToClassReq`. -/
structure AddStudentToClassReq where
  StudentId : Nat
  ClassId : Nat
deriving DecidableEq

/-- The `Data interface{}` field of a `Request`.  The handlers look at it only through
`json.Marshal(data)` followed by `json.Unmarshal(jsonData, &v)` with `v` one of four
struct types, so the value is represented by the outcome of these four decodings;
`none` stands for an unmarshal error. -/
structure Data where
  asSchool : Option School
  asPerson : Option Person
  asClass : Option Class
  asAddStudentToClassReq : Option AddStudentToClassReq
deriving DecidableEq

/-- Go struct `Request`. -/
structure Request where
  Method : String
  Data : Data
deriving DecidableEq

/-- The `Data interface{}` field of a `Response`: nil, or one of the three entity structs
the handlers put there. -/
inductive RespData where
  | none
  | school (s : School)
  | person (p : Person)
  | cls (c : Class)
deriving DecidableEq

/-- Go struct `Response`. -/
structure Response where
  Status : Bool
  Message : String
  Data : RespData
deriving DecidableEq

/-! ## The store: the four tables created by initDB -/

/-- A row of table `schools`. -/
structure SchoolRow where
  id : Nat
  name : String
deriving DecidableEq

/-- A row of table `classes`. -/
structure ClassRow where
  id : Nat
  name : String
  school_id : Nat
  teacher_id : Nat
deriving DecidableEq

/-- A row of table `persons`; `role` defaults to the empty string, `school_id` to NULL. -/
structure PersonRow where
  id : Nat
  name : String
  role : String
  school_id : Option Nat
deriving DecidableEq

/-- A row of table `class_students`. -/
structure ClassStudentRow where
  class_id : Nat
  person_id : Nat
deriving DecidableEq

/-- The database: each table in rowid order, and for the three `AUTOINCREMENT` tables the
largest id handed out so far (SQLite keeps it in `sqlite_sequence`). -/
structure DB where
  schools : List SchoolRow
  classes : List ClassRow
  persons : List PersonRow
  class_students : List ClassStudentRow
  seq_schools : Nat
  seq_classes : Nat
  seq_persons : Nat
deriving DecidableEq

/-- The store right after `initDB` on a fresh file. -/
def emptyDB : DB := ⟨[], [], [], [], 0, 0, 0⟩

/-- The largest number of a list, 0 for the empty list. -/
def maxId (ids : List Nat) : Nat := ids.foldr max 0

/-- The id an `INTEGER PRIMARY KEY AUTOINCREMENT` column gives a new row: one more than
the largest id that ever existed in the table. -/
def autoincrement (seq : Nat) (ids : List Nat) : Nat := max seq (maxId ids) + 1

/-! ## The SQL statements of main.go -/

/-- `INSERT INTO schools (name) VALUES (?)`, with `LastInsertId`. -/
def insertSchool (db : DB) (name : String) : DB × Nat :=
  let id := autoincrement db.seq_schools (db.schools.map (·.id))
  ({ db with schools := db.schools ++ [⟨id, name⟩], seq_schools := id }, id)

/-- `INSERT INTO persons (name, role) VALUES (?, '')`, with `LastInsertId`. -/
def insertPerson (db : DB) (name : String) : DB × Nat :=
  let id := autoincrement db.seq_persons (db.persons.map (·.id))
  ({ db with persons := db.persons ++ [⟨id, name, "", none⟩], seq_persons := id }, id)

/-- `INSERT INTO classes (name, school_id, teacher_id) VALUES (?, ?, ?)`, with
`LastInsertId`. -/
def insertClass (db : DB) (name : String) (schoolId teacherId : Nat) : DB × Nat :=
  let id := autoincrement db.seq_classes (db.classes.map (·.id))
  ({ db with classes := db.classes ++ [⟨id, name, schoolId, teacherId⟩], seq_classes := id }, id)

/-- `SELECT COUNT(*) FROM schools WHERE id = ?`. -/
def countSchools (db : DB) (id : Nat) : Nat :=
  (db.schools.filter (fun r => r.id == id)).length

/-- `SELECT ... FROM persons WHERE id = ?` read with `QueryRow(...).Scan`: the first
matching row, `none` when there is no row (`sql.ErrNoRows`). -/
def selectPerson (db : DB) (id : Nat) : Option PersonRow :=
  db.persons.find? (fun r => r.id == id)

/-- `SELECT school_id FROM classes WHERE id = ?` read with `QueryRow(...).Scan`. -/
def selectClassSchoolId (db : DB) (id : Nat) : Option Nat :=
  (db.classes.find? (fun r => r.id == id)).map (·.school_id)

/-- `UPDATE persons SET role = 'teacher' WHERE id = ?`. -/
def updateTeacher (db : DB) (id : Nat) : DB :=
  { db with
    persons := db.persons.map
      (fun r => if r.id == id then { r with role := "teacher" } else r) }

/-- `UPDATE persons SET role = 'student', school_id = ? WHERE id = ?`. -/
def updateStudent (db : DB) (schoolId id : Nat) : DB :=
  { db with
    persons := db.persons.map
      (fun r => if r.id == id then { r with role := "student", school_id := some schoolId }
        else r) }

/-- `INSERT INTO class_students (class_id, person_id) VALUES (?, ?)`: refused with the
driver's error text when the pair is already there (`PRIMARY KEY (class_id, person_id)`). -/
def insertClassStudent (db : DB) (classId personId : Nat) : Except String DB :=
  if db.class_students.any (fun r => r.class_id == classId && r.person_id == personId) then
    .error "UNIQUE constraint failed: class_students.class_id, class_students.person_id"
  else
    .ok { db with class_students := db.class_students ++ [⟨classId, personId⟩] }

/-- `SELECT class_id FROM class_students WHERE person_id = ?`, all rows, no `ORDER BY`. -/
def selectStudentClasses (db : DB) (personId : Nat) : List Nat :=
  (db.class_students.filter (fun r => r.person_id == personId)).map (·.class_id)

/-- `SELECT id FROM classes WHERE teacher_id = ?`, all rows, no `ORDER BY`. -/
def selectTeacherClasses (db : DB) (personId : Nat) : List Nat :=
  (db.classes.filter (fun r => r.teacher_id == personId)).map (·.id)

/-! ## main.go: the handlers and the connection loop -/

/-- Go constant `CreateSchoolMethod`. -/
def CreateSchoolMethod : String := "/school/create"

/-- Go constant `CreateClassMethod`. -/
def CreateClassMethod : String := "/class/create"

/-- Go constant `CreatePersonMethod`. -/
def CreatePersonMethod : String := "/person/create"

/-- Go constant `AddStudentToClassMethod`. -/
def AddStudentToClassMethod : String := "/class/add/student"

/-- Go constant `WhoAmIMethod`. -/
def WhoAmIMethod : String := "/who/am/i"

/-- A `Response{Status: false, Message: msg}`. -/
def failure (msg : String) : Response := ⟨false, msg, .none⟩

/-- Go `handleCreateSchool`. -/
def handleCreateSchool (db : DB) (data : Data) : DB × Response :=
  match data.asSchool with
  | none => (db, failure "invalid school data")
  | some school =>
    let (db1, id) := insertSchool db school.Name
    (db1, ⟨true, "school created", .school { school with Id := id, Classes := [] }⟩)

/-- Go `handleCreatePerson`. -/
def handleCreatePerson (db : DB) (data : Data) : DB × Response :=
  match data.asPerson with
  | none => (db, failure "invalid person data")
  | some person =>
    let (db1, id) := insertPerson db person.Name
    (db1, ⟨true, "person created", .person { person with Id := id, Classes := [] }⟩)

/-- Go `handleCreateClass`. -/
def handleCreateClass (db : DB) (data : Data) : DB × Response :=
  match data.asClass with
  | none => (db, failure "invalid class data")
  | some cls =>
    if countSchools db cls.SchoolId = 0 then
      (db, failure "school not found")
    else
      match (selectPerson db cls.Teacher.Id).map (·.role) with
      | none => (db, failure "teacher not found")
      | some teacherRole =>
        if teacherRole = "student" then
          (db, failure "person is already a student, cannot be a teacher")
        else
          let db1 := updateTeacher db cls.Teacher.Id
          let (db2, id) := insertClass db1 cls.Name cls.SchoolId cls.Teacher.Id
          (db2, ⟨true, "class created", .cls { cls with Id := id, Students := [] }⟩)

/-- Go `handleAddStudentToClass`. -/
def handleAddStudentToClass (db : DB) (data : Data) : DB × Response :=
  match data.asAddStudentToClassReq with
  | none => (db, failure "invalid request data")
  | some req =>
    match selectPerson db req.StudentId with
    | none => (db, failure "student not found")
    | some row =>
      if row.role = "teacher" then
        (db, failure "person is a teacher, cannot be a student")
      else
        match selectClassSchoolId db req.ClassId with
        | none => (db, failure "class not found")
        | some classSchoolId =>
          if row.school_id.isSome ∧ row.school_id ≠ some classSchoolId then
            (db, failure "student can only enroll in classes from one school")
          else
            let db1 := updateStudent db classSchoolId req.StudentId
            match insertClassStudent db1 req.ClassId req.StudentId with
            | .error e => (db1, failure e)
            | .ok db2 =>
              let classes := selectStudentClasses db2 req.StudentId
              (db2, ⟨true, "student added to class", .person ⟨row.id, row.name, classes⟩⟩)

/-- Go `handleWhoAmI`. -/
def handleWhoAmI (db : DB) (data : Data) : DB × Response :=
  match data.asPerson with
  | none => (db, failure "invalid request data")
  | some reqPerson =>
    match selectPerson db reqPerson.Id with
    | none => (db, failure "person not found")
    | some row =>
      let classes :=
        if row.role = "teacher" then selectTeacherClasses db row.id
        else if row.role = "student" then selectStudentClasses db row.id
        else []
      (db, ⟨true, "success", .person ⟨row.id, row.name, classes⟩⟩)

/-- The `switch req.Method` of Go `handleConnection`. -/
def dispatch (db : DB) (req : Request) : DB × Response :=
  if req.Method = CreateSchoolMethod then handleCreateSchool db req.Data
  else if req.Method = CreateClassMethod then handleCreateClass db req.Data
  else if req.Method = CreatePersonMethod then handleCreatePerson db req.Data
  else if req.Method = AddStudentToClassMethod then handleAddStudentToClass db req.Data
  else if req.Method = WhoAmIMethod then handleWhoAmI db req.Data
  else (db, failure "unknown route")

/-- Go `handleConnection`.  The connection is the list of messages that
`reader.ReadString` delivers before its first error; the result is the store at the
end and the responses handed to `sendResponse`, in the order they were written.
`unmarshal` is `json.Unmarshal([]byte(message), &req)`, `none` being its error. -/
def handleConnection (unmarshal : String → Option Request) :
    DB → List String → DB × List Response
  | db, [] => (db, [])
  | db, message :: rest =>
    match unmarshal message with
    | none =>
      let (db', out) := handleConnection unmarshal db rest
      (db', failure "invalid json" :: out)
    | some req =>
      let (db1, resp) := dispatch db req
      let (db', out) := handleConnection unmarshal db1 rest
      (db', resp :: out)

/-! ## Sequences of requests and what is read off them -/

/-- The store after a sequence of requests. -/
def run : DB → List Request → DB
  | db, [] => db
  | db, req :: rest => run (dispatch db req).1 rest

/-- The requests of a sequence, each with the response it got. -/
def trace : DB → List Request → List (Request × Response)
  | _, [] => []
  | db, req :: rest => (req, (dispatch db req).2) :: trace (dispatch db req).1 rest

/-- The classes of the person in a response, the empty list when there is none. -/
def respClasses (resp : Response) : List Nat :=
  match resp.Data with
  | .person p => p.Classes
  | _ => []

/-- The class id a traced request contributes to the enrollments of person `p`: that of
a successful AddStudentToClass naming `p`. -/
def enrollmentOf (p : Nat) (x : Request × Response) : Option Nat :=
  if x.1.Method = AddStudentToClassMethod ∧ x.2.Status = true then
    match x.1.Data.asAddStudentToClassReq with
    | some r => if r.StudentId = p then some r.ClassId else none
    | none => none
  else none

/-- The class ids of the successful AddStudentToClass calls of person `p`, in call order. -/
def enrollments (p : Nat) (tr : List (Request × Response)) : List Nat :=
  tr.filterMap (enrollmentOf p)

/-- The id of the school a traced request created, if it created one. -/
def createdSchoolId (x : Request × Response) : Option Nat :=
  if x.1.Method = CreateSchoolMethod ∧ x.2.Status = true then
    match x.2.Data with
    | .school s => some s.Id
    | _ => none
  else none

/-- The id of the person a traced request created, if it created one. -/
def createdPersonId (x : Request × Response) : Option Nat :=
  if x.1.Method = CreatePersonMethod ∧ x.2.Status = true then
    match x.2.Data with
    | .person q => some q.Id
    | _ => none
  else none

/-- The ids returned by the successful CreateSchool calls of a trace, in call order. -/
def createdSchoolIds (tr : List (Request × Response)) : List Nat :=
  tr.filterMap createdSchoolId

/-- The ids returned by the successful CreatePerson calls of a trace, in call order. -/
def createdPersonIds (tr : List (Request × Response)) : List Nat :=
  tr.filterMap createdPersonId

/-- The largest school id that ever existed in the store. -/
def schoolsTop (db : DB) : Nat := max db.seq_schools (maxId (db.schools.map (·.id)))

/-- The largest person id that ever existed in the store. -/
def personsTop (db : DB) : Nat := max db.seq_persons (maxId (db.persons.map (·.id)))

/-! ## The requests of the test client (sample_test.go) and other scenarios -/

/-- Payload `School{Name: name}` as the server decodes it. -/
def nameData (name : String) : Data :=
  ⟨some ⟨0, name, []⟩, some ⟨0, name, []⟩, some ⟨0, name, 0, ⟨0, "", []⟩, []⟩, some ⟨0, 0⟩⟩

/-- Payload `Class{SchoolId: schoolId, Teacher: teacher, Name: name}`. -/
def classData (name : String) (schoolId : Nat) (teacher : Person) : Data :=
  ⟨some ⟨0, name, []⟩, some ⟨0, name, []⟩, some ⟨0, name, schoolId, teacher, []⟩, some ⟨0, 0⟩⟩

/-- Payload `AddStudentToClassReq{StudentId: studentId, ClassId: classId}`. -/
def addStudentData (studentId classId : Nat) : Data :=
  ⟨some ⟨0, "", []⟩, some ⟨0, "", []⟩, some ⟨0, "", 0, ⟨0, "", []⟩, []⟩,
    some ⟨studentId, classId⟩⟩

/-- Payload `Person{Id: id}`. -/
def idData (id : Nat) : Data :=
  ⟨some ⟨id, "", []⟩, some ⟨id, "", []⟩, some ⟨id, "", 0, ⟨0, "", []⟩, []⟩, some ⟨0, 0⟩⟩

/-- The request sent by the test helper `createSchool`. -/
def createSchool (name : String) : Request := ⟨CreateSchoolMethod, nameData name⟩

/-- The request sent by the test helper `createPerson`. -/
def createPerson (name : String) : Request := ⟨CreatePersonMethod, nameData name⟩

/-- The request sent by the test helper `createClass`. -/
def createClass (teacher : Person) (schoolId : Nat) (name : String) : Request :=
  ⟨CreateClassMethod, classData name schoolId teacher⟩

/-- The request sent by the test helper `addStudentToClass`. -/
def addStudentToClass (studentId classId : Nat) : Request :=
  ⟨AddStudentToClassMethod, addStudentData studentId classId⟩

/-- The request sent by the test helper `whoAmI`. -/
def whoAmI (id : Nat) : Request := ⟨WhoAmIMethod, idData id⟩

/-- The requests of `TestSimple_1`. -/
def testSimple1 : List Request :=
  [createSchool "school_1", createPerson "teacher_1",
   createClass ⟨1, "teacher_1", []⟩ 1 "class_1", createPerson "student_1",
   addStudentToClass 2 1, whoAmI 1]

/-- The requests that make person 1 a teacher (of class 1) and person 2 a student. -/
def roleScenario : List Request :=
  [createSchool "S1", createPerson "P2", createClass ⟨1, "P2", []⟩ 1 "C1",
   createPerson "P1", addStudentToClass 2 1]

/-- Two schools with one class each; person 2 is enrolled in class 1 of school 1. -/
def twoSchools : List Request :=
  [createSchool "S1", createSchool "S2", createPerson "T1",
   createClass ⟨1, "T1", []⟩ 1 "C1", createClass ⟨1, "T1", []⟩ 2 "C2",
   createPerson "P1", addStudentToClass 2 1]

/-- One school with two classes; person 2 is enrolled in class 1. -/
def twoClasses : List Request :=
  [createSchool "S1", createPerson "T1", createClass ⟨1, "T1", []⟩ 1 "C1",
   createClass ⟨1, "T1", []⟩ 1 "C2", createPerson "P1", addStudentToClass 2 1]

/-- Person 2 enrolled in classes 1 and 2, with a repeated attempt for class 1 in between. -/
def repeatedEnrollment : List Request :=
  [createSchool "S1", createPerson "T1", createClass ⟨1, "T1", []⟩ 1 "C1",
   createClass ⟨1, "T1", []⟩ 1 "C2", createPerson "P1", addStudentToClass 2 1,
   addStudentToClass 2 1, addStudentToClass 2 2, addStudentToClass 2 1]

/-- A student enrolled first in class 2, then in class 1: the requests up to and
including the first enrollment. -/
def enrollDescending : List Request :=
  [createSchool "S1", createPerson "T1", createClass ⟨1, "T1", []⟩ 1 "C1",
   createClass ⟨1, "T1", []⟩ 1 "C2", createPerson "P1", addStudentToClass 2 2]

/-- A stand-in for `json.Unmarshal` that knows three messages and rejects all other
text. -/
def sampleUnmarshal (message : String) : Option Request :=
  if message = "create school S1\n" then some (createSchool "S1")
  else if message = "who am i 1\n" then some (whoAmI 1)
  else if message = "no such route\n" then some ⟨"/no/such/route", nameData ""⟩
  else none

/-! ## Relations and invariants used in the proofs -/

/-- The store after a request, against the store before it: every request leaves the
store alone or performs one of five writes, each under the checks that precede it in
its handler. -/
inductive Step (db : DB) : DB → Prop
  | same : Step db db
  | school (name : String) : Step db (insertSchool db name).1
  | person (name : String) : Step db (insertPerson db name).1
  | cls (name : String) (s t : Nat) (row : PersonRow)
      (hs : countSchools db s ≠ 0) (ht : selectPerson db t = some row)
      (hr : row.role ≠ "student") :
      Step db (insertClass (updateTeacher db t) name s t).1
  | enrolled (p c s : Nat) (row : PersonRow)
      (hp : selectPerson db p = some row) (hr : row.role ≠ "teacher")
      (hc : selectClassSchoolId db c = some s)
      (hs : row.school_id = none ∨ row.school_id = some s)
      (hin : (⟨c, p⟩ : ClassStudentRow) ∈ db.class_students) :
      Step db (updateStudent db s p)
  | enroll (p c s : Nat) (row : PersonRow)
      (hp : selectPerson db p = some row) (hr : row.role ≠ "teacher")
      (hc : selectClassSchoolId db c = some s)
      (hs : row.school_id = none ∨ row.school_id = some s)
      (hnin : (⟨c, p⟩ : ClassStudentRow) ∉ db.class_students) :
      Step db { updateStudent db s p with
        class_students := db.class_students ++ [⟨c, p⟩] }

/-- Row `row'` continues row `row`: same id and name, a teacher or student role is kept,
and a home school is kept. -/
def Kept (row row' : PersonRow) : Prop :=
  row'.id = row.id ∧ row'.name = row.name ∧
    (row.role = "teacher" → row'.role = "teacher") ∧
    (row.role = "student" → row'.role = "student") ∧
    ∀ h, row.school_id = some h → row'.school_id = some h

/-- What holds of every store reached from the empty one. -/
structure Inv (db : DB) : Prop where
  /-- a person with a home school is a student -/
  home : ∀ p row, selectPerson db p = some row → row.school_id ≠ none → row.role = "student"
  /-- an enrollment row names an existing class and an existing person, who is a student
  whose home school is the school of the class -/
  enrol : ∀ e ∈ db.class_students, ∃ s, selectClassSchoolId db e.class_id = some s ∧
    (∃ r ∈ db.persons, r.id = e.person_id) ∧
    ∀ r ∈ db.persons, r.id = e.person_id → r.role = "student" ∧ r.school_id = some s
  /-- no enrollment row occurs twice -/
  nodup : db.class_students.Nodup
  /-- class ids ascend in rowid order -/
  classes : (db.classes.map (·.id)).Pairwise (· < ·)

/-! ## The validation rules in the words of the specification -/

/-- The spec's rule 4 of AddStudentToClass is violated: the student has a home school,
the class exists, and the two schools differ. -/
def homeSchoolDiffers (db : DB) (req : AddStudentToClassReq) : Bool :=
  match (selectPerson db req.StudentId).bind (·.school_id),
      selectClassSchoolId db req.ClassId with
  | some h, some s => h != s
  | _, _ => false

/-- The rules of CreateClass in the order the spec lists them (school exists, teacher
exists, teacher is not a student), each with whether the request violates it on this
store and with the message reported for it. -/
def createClassRules (db : DB) (cls : Class) : List (Bool × String) :=
  [(!db.schools.any (fun r => r.id == cls.SchoolId), "school not found"),
   ((selectPerson db cls.Teacher.Id).isNone, "teacher not found"),
   (decide ((selectPerson db cls.Teacher.Id).map (·.role) = some "student"),
     "person is already a student, cannot be a teacher")]

/-- The rules of AddStudentToClass in the order the spec lists them (student exists,
student is not a teacher, class exists, home school matches), each with whether the
request violates it on this store and with the message reported for it. -/
def addStudentRules (db : DB) (req : AddStudentToClassReq) : List (Bool × String) :=
  [((selectPerson db req.StudentId).isNone, "student not found"),
   (decide ((selectPerson db req.StudentId).map (·.role) = some "teacher"),
     "person is a teacher, cannot be a student"),
   ((selectClassSchoolId db req.ClassId).isNone, "class not found"),
   (homeSchoolDiffers db req, "student can only enroll in classes from one school")]

/-- The message of the earliest violated rule, if any rule is violated. -/
def firstViolated (rules : List (Bool × String)) : Option String :=
  (rules.find? (·.1)).map (·.2)

/-! ## Lemmas on the SQL statements -/

theorem le_maxId {ids : List Nat} {x : Nat} (h : x ∈ ids) : x ≤ maxId ids := by
  induction ids with
  | nil => cases h
  | cons a t ih =>
    simp only [maxId, List.foldr_cons]
    rcases List.mem_cons.1 h with rfl | h
    · exact le_max_left _ _
    · exact le_trans (ih h) (le_max_right _ _)

theorem lt_autoincrement {ids : List Nat} {x : Nat} (seq : Nat) (h : x ∈ ids) :
    x < autoincrement seq ids :=
  Nat.lt_succ_of_le (le_trans (le_maxId h) (le_max_right _ _))

theorem seq_lt_autoincrement (seq : Nat) (ids : List Nat) : seq < autoincrement seq ids :=
  Nat.lt_succ_of_le (le_max_left _ _)

theorem selectPerson_id {db : DB} {p : Nat} {row : PersonRow}
    (h : selectPerson db p = some row) : row.id = p := by
  have := List.find?_some h
  simpa using this

theorem selectPerson_mem {db : DB} {p : Nat} {row : PersonRow}
    (h : selectPerson db p = some row) : row ∈ db.persons :=
  List.mem_of_find?_eq_some h

/-- Looking a key up in a table whose rows were rewritten by a key-preserving function. -/
theorem find?_map_key {α : Type} (key : α → Nat) (f : α → α) (hf : ∀ r, key (f r) = key r)
    (l : List α) (q : Nat) :
    (l.map f).find? (fun r => key r == q) = (l.find? (fun r => key r == q)).map f := by
  rw [List.find?_map]
  congr 2
  funext r
  simp [Function.comp, hf]

theorem selectPerson_updateTeacher (db : DB) (t q : Nat) :
    selectPerson (updateTeacher db t) q =
      (selectPerson db q).map
        (fun r : PersonRow => if r.id == t then { r with role := "teacher" } else r) := by
  unfold selectPerson updateTeacher
  exact find?_map_key (fun r : PersonRow => r.id) _
    (fun r => by by_cases h : r.id == t <;> simp [h]) _ _

theorem selectPerson_updateStudent (db : DB) (s p q : Nat) :
    selectPerson (updateStudent db s p) q =
      (selectPerson db q).map
        (fun r : PersonRow =>
          if r.id == p then { r with role := "student", school_id := some s } else r) := by
  unfold selectPerson updateStudent
  exact find?_map_key (fun r : PersonRow => r.id) _
    (fun r => by by_cases h : r.id == p <;> simp [h]) _ _

theorem selectPerson_insertPerson {db : DB} {q : Nat} {row : PersonRow} (name : String)
    (h : selectPerson db q = some row) : selectPerson (insertPerson db name).1 q = some row := by
  unfold selectPerson at h ⊢
  simp [insertPerson, List.find?_append, h]

theorem any_pair_iff (l : List ClassStudentRow) (c p : Nat) :
    l.any (fun r => r.class_id == c && r.person_id == p) = true ↔
      (⟨c, p⟩ : ClassStudentRow) ∈ l := by
  rw [List.any_eq_true]
  constructor
  · rintro ⟨⟨c', p'⟩, hm, h⟩
    simp at h
    obtain ⟨rfl, rfl⟩ := h
    exact hm
  · intro h
    exact ⟨_, h, by simp⟩

theorem insertClassStudent_of_mem {db : DB} {c p : Nat}
    (h : (⟨c, p⟩ : ClassStudentRow) ∈ db.class_students) :
    insertClassStudent db c p =
      .error "UNIQUE constraint failed: class_students.class_id, class_students.person_id" := by
  unfold insertClassStudent
  rw [if_pos ((any_pair_iff _ _ _).2 h)]

theorem insertClassStudent_of_not_mem {db : DB} {c p : Nat}
    (h : (⟨c, p⟩ : ClassStudentRow) ∉ db.class_students) :
    insertClassStudent db c p =
      .ok { db with class_students := db.class_students ++ [⟨c, p⟩] } := by
  unfold insertClassStudent
  rw [if_neg (fun h' => h ((any_pair_iff _ _ _).1 h'))]

theorem school_cases {o : Option Nat} {s : Nat} (h : ¬(o.isSome ∧ o ≠ some s)) :
    o = none ∨ o = some s := by
  cases o with
  | none => exact Or.inl rfl
  | some x =>
    right
    by_contra hne
    exact h ⟨rfl, hne⟩

/-! ## The paths through the handlers -/

theorem handleCreateSchool_invalid {db : DB} {data : Data} (h : data.asSchool = none) :
    handleCreateSchool db data = (db, failure "invalid school data") := by
  simp [handleCreateSchool, h]

theorem handleCreateSchool_ok {db : DB} {data : Data} {school : School}
    (h : data.asSchool = some school) :
    handleCreateSchool db data =
      ((insertSchool db school.Name).1,
        ⟨true, "school created",
          .school { school with Id := (insertSchool db school.Name).2, Classes := [] }⟩) := by
  simp [handleCreateSchool, h]

theorem handleCreatePerson_invalid {db : DB} {data : Data} (h : data.asPerson = none) :
    handleCreatePerson db data = (db, failure "invalid person data") := by
  simp [handleCreatePerson, h]

theorem handleCreatePerson_ok {db : DB} {data : Data} {person : Person}
    (h : data.asPerson = some person) :
    handleCreatePerson db data =
      ((insertPerson db person.Name).1,
        ⟨true, "person created",
          .person { person with Id := (insertPerson db person.Name).2, Classes := [] }⟩) := by
  simp [handleCreatePerson, h]

theorem handleCreateClass_invalid {db : DB} {data : Data} (h : data.asClass = none) :
    handleCreateClass db data = (db, failure "invalid class data") := by
  simp [handleCreateClass, h]

theorem handleCreateClass_noSchool {db : DB} {data : Data} {cls : Class}
    (h : data.asClass = some cls) (hs : countSchools db cls.SchoolId = 0) :
    handleCreateClass db data = (db, failure "school not found") := by
  simp [handleCreateClass, h, hs]

theorem handleCreateClass_noTeacher {db : DB} {data : Data} {cls : Class}
    (h : data.asClass = some cls) (hs : countSchools db cls.SchoolId ≠ 0)
    (ht : selectPerson db cls.Teacher.Id = none) :
    handleCreateClass db data = (db, failure "teacher not found") := by
  simp [handleCreateClass, h, hs, ht]

theorem handleCreateClass_student {db : DB} {data : Data} {cls : Class} {row : PersonRow}
    (h : data.asClass = some cls) (hs : countSchools db cls.SchoolId ≠ 0)
    (ht : selectPerson db cls.Teacher.Id = some row) (hr : row.role = "student") :
    handleCreateClass db data =
      (db, failure "person is already a student, cannot be a teacher") := by
  simp [handleCreateClass, h, hs, ht, hr]

theorem handleCreateClass_ok {db : DB} {data : Data} {cls : Class} {row : PersonRow}
    (h : data.asClass = some cls) (hs : countSchools db cls.SchoolId ≠ 0)
    (ht : selectPerson db cls.Teacher.Id = some row) (hr : row.role ≠ "student") :
    handleCreateClass db data =
      ((insertClass (updateTeacher db cls.Teacher.Id) cls.Name cls.SchoolId cls.Teacher.Id).1,
        ⟨true, "class created",
          .cls { cls with
            Id := (insertClass (updateTeacher db cls.Teacher.Id) cls.Name cls.SchoolId
              cls.Teacher.Id).2,
            Students := [] }⟩) := by
  simp [handleCreateClass, h, hs, ht, hr]

theorem handleAddStudentToClass_invalid {db : DB} {data : Data}
    (h : data.asAddStudentToClassReq = none) :
    handleAddStudentToClass db data = (db, failure "invalid request data") := by
  simp [handleAddStudentToClass, h]

theorem handleAddStudentToClass_noStudent {db : DB} {data : Data} {req : AddStudentToClassReq}
    (h : data.asAddStudentToClassReq = some req) (hp : selectPerson db req.StudentId = none) :
    handleAddStudentToClass db data = (db, failure "student not found") := by
  simp [handleAddStudentToClass, h, hp]

theorem handleAddStudentToClass_teacher {db : DB} {data : Data} {req : AddStudentToClassReq}
    {row : PersonRow} (h : data.asAddStudentToClassReq = some req)
    (hp : selectPerson db req.StudentId = some row) (hr : row.role = "teacher") :
    handleAddStudentToClass db data =
      (db, failure "person is a teacher, cannot be a student") := by
  simp [handleAddStudentToClass, h, hp, hr]

theorem handleAddStudentToClass_noClass {db : DB} {data : Data} {req : AddStudentToClassReq}
    {row : PersonRow} (h : data.asAddStudentToClassReq = some req)
    (hp : selectPerson db req.StudentId = some row) (hr : row.role ≠ "teacher")
    (hc : selectClassSchoolId db req.ClassId = none) :
    handleAddStudentToClass db data = (db, failure "class not found") := by
  simp [handleAddStudentToClass, h, hp, hr, hc]

theorem handleAddStudentToClass_mismatch {db : DB} {data : Data} {req : AddStudentToClassReq}
    {row : PersonRow} {s : Nat} (h : data.asAddStudentToClassReq = some req)
    (hp : selectPerson db req.StudentId = some row) (hr : row.role ≠ "teacher")
    (hc : selectClassSchoolId db req.ClassId = some s)
    (hm : row.school_id.isSome ∧ row.school_id ≠ some s) :
    handleAddStudentToClass db data =
      (db, failure "student can only enroll in classes from one school") := by
  simp only [handleAddStudentToClass, h, hp, hr, hc, if_false]
  rw [if_pos hm]

theorem handleAddStudentToClass_dup {db : DB} {data : Data} {req : AddStudentToClassReq}
    {row : PersonRow} {s : Nat} (h : data.asAddStudentToClassReq = some req)
    (hp : selectPerson db req.StudentId = some row) (hr : row.role ≠ "teacher")
    (hc : selectClassSchoolId db req.ClassId = some s)
    (hm : ¬(row.school_id.isSome ∧ row.school_id ≠ some s))
    (hin : (⟨req.ClassId, req.StudentId⟩ : ClassStudentRow) ∈ db.class_students) :
    handleAddStudentToClass db data =
      (updateStudent db s req.StudentId,
        failure
          "UNIQUE constraint failed: class_students.class_id, class_students.person_id") := by
  have hin' : (⟨req.ClassId, req.StudentId⟩ : ClassStudentRow) ∈
      (updateStudent db s req.StudentId).class_students := hin
  simp only [handleAddStudentToClass, h, hp, hr, hc, if_false]
  rw [if_neg hm]
  simp only [insertClassStudent_of_mem hin']

theorem handleAddStudentToClass_ok {db : DB} {data : Data} {req : AddStudentToClassReq}
    {row : PersonRow} {s : Nat} (h : data.asAddStudentToClassReq = some req)
    (hp : selectPerson db req.StudentId = some row) (hr : row.role ≠ "teacher")
    (hc : selectClassSchoolId db req.ClassId = some s)
    (hm : ¬(row.school_id.isSome ∧ row.school_id ≠ some s))
    (hnin : (⟨req.ClassId, req.StudentId⟩ : ClassStudentRow) ∉ db.class_students) :
    handleAddStudentToClass db data =
      ({ updateStudent db s req.StudentId with
          class_students := db.class_students ++ [⟨req.ClassId, req.StudentId⟩] },
        ⟨true, "student added to class",
          .person ⟨row.id, row.name,
            selectStudentClasses
              { updateStudent db s req.StudentId with
                class_students := db.class_students ++ [⟨req.ClassId, req.StudentId⟩] }
              req.StudentId⟩⟩) := by
  have hin' : (⟨req.ClassId, req.StudentId⟩ : ClassStudentRow) ∉
      (updateStudent db s req.StudentId).class_students := hnin
  simp only [handleAddStudentToClass, h, hp, hr, hc, if_false]
  rw [if_neg hm]
  simp only [insertClassStudent_of_not_mem hin']
  rfl

theorem handleWhoAmI_invalid {db : DB} {data : Data} (h : data.asPerson = none) :
    handleWhoAmI db data = (db, failure "invalid request data") := by
  simp [handleWhoAmI, h]

theorem handleWhoAmI_noPerson {db : DB} {data : Data} {reqPerson : Person}
    (h : data.asPerson = some reqPerson) (hp : selectPerson db reqPerson.Id = none) :
    handleWhoAmI db data = (db, failure "person not found") := by
  simp [handleWhoAmI, h, hp]

theorem handleWhoAmI_ok {db : DB} {data : Data} {reqPerson : Person} {row : PersonRow}
    (h : data.asPerson = some reqPerson) (hp : selectPerson db reqPerson.Id = some row) :
    handleWhoAmI db data =
      (db, ⟨true, "success", .person ⟨row.id, row.name,
        if row.role = "teacher" then selectTeacherClasses db row.id
        else if row.role = "student" then selectStudentClasses db row.id
        else []⟩⟩) := by
  simp [handleWhoAmI, h, hp]

/-! ## What one request does to the store -/

theorem handleCreateSchool_step (db : DB) (data : Data) :
    Step db (handleCreateSchool db data).1 := by
  rcases h : data.asSchool with _ | school
  · rw [handleCreateSchool_invalid h]; exact Step.same
  · rw [handleCreateSchool_ok h]; exact Step.school _

theorem handleCreatePerson_step (db : DB) (data : Data) :
    Step db (handleCreatePerson db data).1 := by
  rcases h : data.asPerson with _ | person
  · rw [handleCreatePerson_invalid h]; exact Step.same
  · rw [handleCreatePerson_ok h]; exact Step.person _

theorem handleCreateClass_step (db : DB) (data : Data) :
    Step db (handleCreateClass db data).1 := by
  rcases h : data.asClass with _ | cls
  · rw [handleCreateClass_invalid h]; exact Step.same
  by_cases hs : countSchools db cls.SchoolId = 0
  · rw [handleCreateClass_noSchool h hs]; exact Step.same
  rcases ht : selectPerson db cls.Teacher.Id with _ | row
  · rw [handleCreateClass_noTeacher h hs ht]; exact Step.same
  by_cases hr : row.role = "student"
  · rw [handleCreateClass_student h hs ht hr]; exact Step.same
  · rw [handleCreateClass_ok h hs ht hr]; exact Step.cls _ _ _ row hs ht hr

theorem handleAddStudentToClass_step (db : DB) (data : Data) :
    Step db (handleAddStudentToClass db data).1 := by
  rcases h : data.asAddStudentToClassReq with _ | req
  · rw [handleAddStudentToClass_invalid h]; exact Step.same
  rcases hp : selectPerson db req.StudentId with _ | row
  · rw [handleAddStudentToClass_noStudent h hp]; exact Step.same
  by_cases hr : row.role = "teacher"
  · rw [handleAddStudentToClass_teacher h hp hr]; exact Step.same
  rcases hc : selectClassSchoolId db req.ClassId with _ | s
  · rw [handleAddStudentToClass_noClass h hp hr hc]; exact Step.same
  by_cases hm : row.school_id.isSome ∧ row.school_id ≠ some s
  · rw [handleAddStudentToClass_mismatch h hp hr hc hm]; exact Step.same
  by_cases hin : (⟨req.ClassId, req.StudentId⟩ : ClassStudentRow) ∈ db.class_students
  · rw [handleAddStudentToClass_dup h hp hr hc hm hin]
    exact Step.enrolled _ _ _ row hp hr hc (school_cases hm) hin
  · rw [handleAddStudentToClass_ok h hp hr hc hm hin]
    exact Step.enroll _ _ _ row hp hr hc (school_cases hm) hin

theorem handleWhoAmI_db (db : DB) (data : Data) : (handleWhoAmI db data).1 = db := by
  rcases h : data.asPerson with _ | reqPerson
  · rw [handleWhoAmI_invalid h]
  rcases hp : selectPerson db reqPerson.Id with _ | row
  · rw [handleWhoAmI_noPerson h hp]
  · rw [handleWhoAmI_ok h hp]

theorem dispatch_step (db : DB) (req : Request) : Step db (dispatch db req).1 := by
  unfold dispatch
  split_ifs
  · exact handleCreateSchool_step _ _
  · exact handleCreateClass_step _ _
  · exact handleCreatePerson_step _ _
  · exact handleAddStudentToClass_step _ _
  · rw [handleWhoAmI_db]; exact Step.same
  · exact Step.same

/-! ## What a request keeps of a person row -/

theorem Kept.refl (row : PersonRow) : Kept row row :=
  ⟨rfl, rfl, id, id, fun _ h => h⟩

theorem Kept.trans {a b c : PersonRow} (h1 : Kept a b) (h2 : Kept b c) : Kept a c :=
  ⟨h2.1.trans h1.1, h2.2.1.trans h1.2.1, fun h => h2.2.2.1 (h1.2.2.1 h),
    fun h => h2.2.2.2.1 (h1.2.2.2.1 h), fun x h => h2.2.2.2.2 x (h1.2.2.2.2 x h)⟩

theorem selectPerson_step {db db' : DB} (hstep : Step db db') {q : Nat} {row : PersonRow}
    (h : selectPerson db q = some row) :
    ∃ row', selectPerson db' q = some row' ∧ Kept row row' := by
  have hid := selectPerson_id h
  cases hstep with
  | same => exact ⟨row, h, Kept.refl _⟩
  | school name => exact ⟨row, h, Kept.refl _⟩
  | person name => exact ⟨row, selectPerson_insertPerson name h, Kept.refl _⟩
  | cls name s t trow hs ht hr =>
    have e : selectPerson (insertClass (updateTeacher db t) name s t).1 q =
        selectPerson (updateTeacher db t) q := rfl
    rw [e, selectPerson_updateTeacher, h]
    refine ⟨_, rfl, ?_⟩
    by_cases hq : row.id = t
    · have : trow = row := by
        rw [hid] at hq; subst hq; rw [h] at ht; exact (Option.some.inj ht).symm
      subst this
      simp only [hq, beq_self_eq_true, if_true]
      exact ⟨hq.symm, rfl, fun _ => rfl, fun h' => absurd h' hr, fun _ h' => h'⟩
    · have : (row.id == t) = false := by simpa using hq
      simp only [this]
      exact Kept.refl _
  | enrolled p c s prow hp hr hc hs hin =>
    rw [selectPerson_updateStudent, h]
    refine ⟨_, rfl, ?_⟩
    by_cases hq : row.id = p
    · have : prow = row := by
        rw [hid] at hq; subst hq; rw [h] at hp; exact (Option.some.inj hp).symm
      subst this
      simp only [hq, beq_self_eq_true, if_true]
      refine ⟨hq.symm, rfl, fun h' => absurd h' hr, fun _ => rfl, fun x h' => ?_⟩
      rcases hs with hs | hs
      · rw [hs] at h'; cases h'
      · rw [hs] at h'; exact h'
    · have : (row.id == p) = false := by simpa using hq
      simp only [this]
      exact Kept.refl _
  | enroll p c s prow hp hr hc hs hnin =>
    have e : selectPerson { updateStudent db s p with
        class_students := db.class_students ++ [⟨c, p⟩] } q =
        selectPerson (updateStudent db s p) q := rfl
    rw [e, selectPerson_updateStudent, h]
    refine ⟨_, rfl, ?_⟩
    by_cases hq : row.id = p
    · have : prow = row := by
        rw [hid] at hq; subst hq; rw [h] at hp; exact (Option.some.inj hp).symm
      subst this
      simp only [hq, beq_self_eq_true, if_true]
      refine ⟨hq.symm, rfl, fun h' => absurd h' hr, fun _ => rfl, fun x h' => ?_⟩
      rcases hs with hs | hs
      · rw [hs] at h'; cases h'
      · rw [hs] at h'; exact h'
    · have : (row.id == p) = false := by simpa using hq
      simp only [this]
      exact Kept.refl _

theorem selectPerson_run (reqs : List Request) :
    ∀ (db : DB) {q : Nat} {row : PersonRow}, selectPerson db q = some row →
      ∃ row', selectPerson (run db reqs) q = some row' ∧ Kept row row' := by
  induction reqs with
  | nil => intro db q row h; exact ⟨row, h, Kept.refl _⟩
  | cons req rest ih =>
    intro db q row h
    obtain ⟨r1, h1, k1⟩ := selectPerson_step (dispatch_step db req) h
    obtain ⟨r2, h2, k2⟩ := ih _ h1
    exact ⟨r2, h2, k1.trans k2⟩

theorem run_append (reqs1 reqs2 : List Request) :
    ∀ db, run db (reqs1 ++ reqs2) = run (run db reqs1) reqs2 := by
  induction reqs1 with
  | nil => intro db; rfl
  | cons req rest ih => intro db; exact ih _

/-! ## The invariants hold in every store reached from the empty one -/

theorem Inv_emptyDB : Inv emptyDB where
  home := by intro p row h; cases h
  enrol := by intro e he; cases he
  nodup := List.nodup_nil
  classes := List.Pairwise.nil

theorem selectClassSchoolId_insertClass {db : DB} {c s : Nat} (name : String) (s' t : Nat)
    (h : selectClassSchoolId db c = some s) :
    selectClassSchoolId (insertClass db name s' t).1 c = some s := by
  unfold selectClassSchoolId at h ⊢
  rcases hf : db.classes.find? (fun r => r.id == c) with _ | r
  · rw [hf] at h; cases h
  · rw [hf] at h
    simp [insertClass, List.find?_append, hf] at h ⊢
    exact h

theorem updateTeacher_fn_id (t : Nat) (r : PersonRow) :
    (if r.id == t then ({ r with role := "teacher" } : PersonRow) else r).id = r.id := by
  split <;> rfl

theorem updateStudent_fn_id (s p : Nat) (r : PersonRow) :
    (if r.id == p then ({ r with role := "student", school_id := some s } : PersonRow)
      else r).id = r.id := by
  split <;> rfl

/-- The enrollment invariant for one row survives `updateStudent` when the person
updated either is someone else or already has the school of the row's class. -/
theorem enrol_updateStudent {db : DB} {s p : Nat} {prow : PersonRow}
    (hp : selectPerson db p = some prow)
    (hs : prow.school_id = none ∨ prow.school_id = some s)
    {e : ClassStudentRow} {se : Nat}
    (hall : ∀ r ∈ db.persons, r.id = e.person_id → r.role = "student" ∧ r.school_id = some se)
    (hex : ∃ r ∈ db.persons, r.id = e.person_id) :
    (∃ r ∈ (updateStudent db s p).persons, r.id = e.person_id) ∧
    ∀ r ∈ (updateStudent db s p).persons, r.id = e.person_id →
      r.role = "student" ∧ r.school_id = some se := by
  constructor
  · obtain ⟨r, hr, hid⟩ := hex
    refine ⟨_, List.mem_map_of_mem _ hr, ?_⟩
    exact (updateStudent_fn_id s p r).trans hid
  · intro r' hr' hid'
    simp only [updateStudent, List.mem_map] at hr'
    obtain ⟨r0, hr0, rfl⟩ := hr'
    by_cases hq : r0.id = p
    · simp only [hq, beq_self_eq_true, if_true] at hid' ⊢
      have h1 := hall prow (selectPerson_mem hp) ((selectPerson_id hp).trans hid')
      rcases hs with hs | hs
      · rw [hs] at h1; cases h1.2
      · rw [hs] at h1; exact ⟨trivial, h1.2⟩
    · have : (r0.id == p) = false := by simpa using hq
      simp only [this] at hid' ⊢
      exact hall r0 hr0 hid'

theorem Inv_step {db db' : DB} (hstep : Step db db') (h : Inv db) : Inv db' := by
  cases hstep with
  | same => exact h
  | school name => exact ⟨h.home, h.enrol, h.nodup, h.classes⟩
  | person name =>
    refine ⟨?_, ?_, h.nodup, h.classes⟩
    · intro p row hsel hne
      rcases hold : selectPerson db p with _ | r
      · unfold selectPerson at hold hsel
        simp only [insertPerson, List.find?_append, hold, Option.none_or] at hsel
        have hm := List.mem_of_find?_eq_some hsel
        simp only [List.mem_singleton] at hm
        subst hm
        exact absurd rfl hne
      · rw [selectPerson_insertPerson name hold] at hsel
        cases hsel
        exact h.home p _ hold hne
    · intro e he
      obtain ⟨s, hsel, ⟨r, hr, hid⟩, hall⟩ := h.enrol e he
      refine ⟨s, hsel, ⟨r, ?_, hid⟩, ?_⟩
      · simp [insertPerson, hr]
      · intro r' hr' hid'
        simp only [insertPerson, List.mem_append, List.mem_singleton] at hr'
        rcases hr' with hr' | rfl
        · exact hall r' hr' hid'
        · exfalso
          have hlt : r.id < autoincrement db.seq_persons (db.persons.map (·.id)) :=
            lt_autoincrement _ (List.mem_map_of_mem _ hr)
          simp only at hid'
          omega
  | cls name s t trow hs ht hr =>
    refine ⟨?_, ?_, h.nodup, ?_⟩
    · intro p row hsel hne
      have e : selectPerson (insertClass (updateTeacher db t) name s t).1 p =
          selectPerson (updateTeacher db t) p := rfl
      rw [e, selectPerson_updateTeacher] at hsel
      rcases hold : selectPerson db p with _ | r0
      · rw [hold] at hsel; cases hsel
      · rw [hold] at hsel
        simp only [Option.map_some', Option.some.injEq] at hsel
        by_cases hq : r0.id = t
        · exfalso
          have hpt : p = t := (selectPerson_id hold).symm.trans hq
          subst hpt
          rw [ht] at hold
          cases hold
          simp only [hq, beq_self_eq_true, if_true] at hsel
          subst hsel
          exact hr (h.home _ _ ht hne)
        · have : (r0.id == t) = false := by simpa using hq
          simp only [this] at hsel
          simp only [Bool.false_eq_true, if_false] at hsel
          subst hsel
          exact h.home p _ hold hne
    · intro e he
      obtain ⟨se, hsel, ⟨r, hrm, hid⟩, hall⟩ := h.enrol e he
      have hne : e.person_id ≠ t := by
        intro heq
        have := hall trow (selectPerson_mem ht) ((selectPerson_id ht).trans heq.symm)
        exact hr this.1
      refine ⟨se, selectClassSchoolId_insertClass name s t hsel, ?_, ?_⟩
      · exact ⟨_, List.mem_map_of_mem _ hrm, (updateTeacher_fn_id t r).trans hid⟩
      · intro r' hr' hid'
        have hr'' : r' ∈ (updateTeacher db t).persons := hr'
        simp only [updateTeacher, List.mem_map] at hr''
        obtain ⟨r0, hr0, rfl⟩ := hr''
        by_cases hq : r0.id = t
        · simp only [hq, beq_self_eq_true, if_true] at hid'
          exact absurd hid'.symm hne
        · have : (r0.id == t) = false := by simpa using hq
          simp only [this] at hid' ⊢
          exact hall r0 hr0 hid'
    · have e : (insertClass (updateTeacher db t) name s t).1.classes =
          db.classes ++ [⟨autoincrement db.seq_classes (db.classes.map (·.id)), name, s, t⟩] :=
        rfl
      rw [e, List.map_append, List.pairwise_append]
      refine ⟨h.classes, List.pairwise_singleton _ _, ?_⟩
      intro a ha b hb
      simp only [List.map_cons, List.map_nil, List.mem_singleton] at hb
      subst hb
      exact lt_autoincrement _ ha
  | enrolled p c s prow hp hr hc hs hin =>
    refine ⟨?_, ?_, h.nodup, h.classes⟩
    · intro q row hsel hne
      rw [selectPerson_updateStudent] at hsel
      rcases hold : selectPerson db q with _ | r0
      · rw [hold] at hsel; cases hsel
      · rw [hold] at hsel
        simp only [Option.map_some', Option.some.injEq] at hsel
        by_cases hq : r0.id = p
        · simp only [hq, beq_self_eq_true, if_true] at hsel
          subst hsel
          rfl
        · have : (r0.id == p) = false := by simpa using hq
          simp only [this, Bool.false_eq_true, if_false] at hsel
          subst hsel
          exact h.home q _ hold hne
    · intro e he
      obtain ⟨se, hsel, hex, hall⟩ := h.enrol e he
      exact ⟨se, hsel, enrol_updateStudent hp hs hall hex⟩
  | enroll p c s prow hp hr hc hs hnin =>
    refine ⟨?_, ?_, ?_, h.classes⟩
    · intro q row hsel hne
      have e : selectPerson { updateStudent db s p with
          class_students := db.class_students ++ [⟨c, p⟩] } q =
          selectPerson (updateStudent db s p) q := rfl
      rw [e, selectPerson_updateStudent] at hsel
      rcases hold : selectPerson db q with _ | r0
      · rw [hold] at hsel; cases hsel
      · rw [hold] at hsel
        simp only [Option.map_some', Option.some.injEq] at hsel
        by_cases hq : r0.id = p
        · simp only [hq, beq_self_eq_true, if_true] at hsel
          subst hsel
          rfl
        · have : (r0.id == p) = false := by simpa using hq
          simp only [this, Bool.false_eq_true, if_false] at hsel
          subst hsel
          exact h.home q _ hold hne
    · intro e he
      have he' : e ∈ db.class_students ++ [⟨c, p⟩] := he
      rcases List.mem_append.1 he' with he1 | he1
      · obtain ⟨se, hsel, hex, hall⟩ := h.enrol e he1
        exact ⟨se, hsel, enrol_updateStudent hp hs hall hex⟩
      · simp only [List.mem_singleton] at he1
        subst he1
        refine ⟨s, hc, ?_, ?_⟩
        · refine ⟨_, List.mem_map_of_mem _ (selectPerson_mem hp), ?_⟩
          simp [selectPerson_id hp]
        · intro r' hr' hid'
          have hr'' : r' ∈ (updateStudent db s p).persons := hr'
          simp only [updateStudent, List.mem_map] at hr''
          obtain ⟨r0, hr0, rfl⟩ := hr''
          by_cases hq : r0.id = p
          · simp [hq]
          · have : (r0.id == p) = false := by simpa using hq
            simp only [this] at hid'
            exact absurd hid' hq
    · show (db.class_students ++ [(⟨c, p⟩ : ClassStudentRow)]).Nodup
      rw [List.nodup_append]
      refine ⟨h.nodup, List.nodup_singleton _, ?_⟩
      intro x hx hx'
      simp only [List.mem_singleton] at hx'
      subst hx'
      exact hnin hx

theorem Inv_run (reqs : List Request) : ∀ db, Inv db → Inv (run db reqs) := by
  induction reqs with
  | nil => intro db h; exact h
  | cons req rest ih => intro db h; exact ih _ (Inv_step (dispatch_step db req) h)

/-! ## Role exclusivity and the home school -/

/-- C1. Role exclusivity over every sequence of requests from the empty store.  Let
`row` be the stored row of person `p` after the requests `reqs1`.
(1) If its role is teacher then, after any further requests `reqs2`, every
AddStudentToClass naming `p`, for any class id, answers status=false with the
role-conflict message and leaves the store as it is (so no class_students row is added).
(2) If its role is student then, after any further requests `reqs2`, every CreateClass
naming `p` as teacher answers status=false without data and leaves the store as it is
(no class, no role change).
(3), (4) A successful CreateClass stores role teacher for its teacher, a successful
AddStudentToClass stores role student for its student. -/
theorem role_exclusivity (reqs1 reqs2 : List Request) (p : Nat) (row : PersonRow)
    (hsel : selectPerson (run emptyDB reqs1) p = some row) :
    (row.role = "teacher" → ∀ (data : Data) (c : Nat),
      data.asAddStudentToClassReq = some ⟨p, c⟩ →
      handleAddStudentToClass (run emptyDB (reqs1 ++ reqs2)) data =
        (run emptyDB (reqs1 ++ reqs2), failure "person is a teacher, cannot be a student")) ∧
    (row.role = "student" → ∀ (data : Data) (cls : Class),
      data.asClass = some cls → cls.Teacher.Id = p →
      (handleCreateClass (run emptyDB (reqs1 ++ reqs2)) data).1 = run emptyDB (reqs1 ++ reqs2) ∧
      (handleCreateClass (run emptyDB (reqs1 ++ reqs2)) data).2.Status = false ∧
      (handleCreateClass (run emptyDB (reqs1 ++ reqs2)) data).2.Data = .none) ∧
    (∀ (data : Data) (cls : Class), data.asClass = some cls → cls.Teacher.Id = p →
      (handleCreateClass (run emptyDB reqs1) data).2.Status = true →
      ∃ row', selectPerson (handleCreateClass (run emptyDB reqs1) data).1 p = some row' ∧
        row'.role = "teacher") ∧
    (∀ (data : Data) (c : Nat), data.asAddStudentToClassReq = some ⟨p, c⟩ →
      (handleAddStudentToClass (run emptyDB reqs1) data).2.Status = true →
      ∃ row', selectPerson (handleAddStudentToClass (run emptyDB reqs1) data).1 p = some row' ∧
        row'.role = "student") := by
  obtain ⟨row2, hsel2, hk⟩ := selectPerson_run reqs2 (run emptyDB reqs1) hsel
  rw [← run_append] at hsel2
  refine ⟨?_, ?_, ?_, ?_⟩
  · intro hrole data c hd
    exact handleAddStudentToClass_teacher hd hsel2 (hk.2.2.1 hrole)
  · intro hrole data cls hd hid
    subst hid
    by_cases hs : countSchools (run emptyDB (reqs1 ++ reqs2)) cls.SchoolId = 0
    · rw [handleCreateClass_noSchool hd hs]; exact ⟨rfl, rfl, rfl⟩
    · rw [handleCreateClass_student hd hs hsel2 (hk.2.2.2.1 hrole)]; exact ⟨rfl, rfl, rfl⟩
  · intro data cls hd hid hst
    subst hid
    by_cases hs : countSchools (run emptyDB reqs1) cls.SchoolId = 0
    · rw [handleCreateClass_noSchool hd hs] at hst; cases hst
    by_cases hr : row.role = "student"
    · rw [handleCreateClass_student hd hs hsel hr] at hst; cases hst
    rw [handleCreateClass_ok hd hs hsel hr]
    have e : selectPerson (insertClass (updateTeacher (run emptyDB reqs1) cls.Teacher.Id)
        cls.Name cls.SchoolId cls.Teacher.Id).1 cls.Teacher.Id =
        selectPerson (updateTeacher (run emptyDB reqs1) cls.Teacher.Id) cls.Teacher.Id := rfl
    refine ⟨_, by rw [e, selectPerson_updateTeacher, hsel]; rfl, ?_⟩
    simp [selectPerson_id hsel]
  · intro data c hd hst
    by_cases hr : row.role = "teacher"
    · rw [handleAddStudentToClass_teacher hd hsel hr] at hst; cases hst
    rcases hc : selectClassSchoolId (run emptyDB reqs1) c with _ | s
    · rw [handleAddStudentToClass_noClass hd hsel hr hc] at hst; cases hst
    by_cases hm : row.school_id.isSome ∧ row.school_id ≠ some s
    · rw [handleAddStudentToClass_mismatch hd hsel hr hc hm] at hst; cases hst
    by_cases hin : (⟨c, p⟩ : ClassStudentRow) ∈ (run emptyDB reqs1).class_students
    · rw [handleAddStudentToClass_dup hd hsel hr hc hm hin] at hst; cases hst
    rw [handleAddStudentToClass_ok hd hsel hr hc hm hin]
    have e : selectPerson { updateStudent (run emptyDB reqs1) s p with
        class_students := (run emptyDB reqs1).class_students ++ [⟨c, p⟩] } p =
        selectPerson (updateStudent (run emptyDB reqs1) s p) p := rfl
    refine ⟨_, by rw [e, selectPerson_updateStudent, hsel]; rfl, ?_⟩
    simp [selectPerson_id hsel]

theorem role_exclusivity_witness :
    handleAddStudentToClass (run emptyDB (roleScenario ++ [createSchool "S2"]))
        (addStudentData 1 7) =
      (run emptyDB (roleScenario ++ [createSchool "S2"]),
        failure "person is a teacher, cannot be a student") ∧
    (handleCreateClass (run emptyDB (roleScenario ++ [createSchool "S2"]))
        (classData "C2" 1 ⟨2, "P1", []⟩)).2.Status = false :=
  ⟨(role_exclusivity roleScenario [createSchool "S2"] 1 ⟨1, "P2", "teacher", none⟩
      (rfl)).1 rfl _ 7 rfl,
   ((role_exclusivity roleScenario [createSchool "S2"] 2 ⟨2, "P1", "student", some 1⟩
      (rfl)).2.1 rfl _ _ rfl rfl).2.1⟩

/-- C2. In every store reached from the empty one in which person `p` has home school
`h`, for every existing class `c` whose school `s` differs from `h`,
AddStudentToClass(p, c) answers status=false with the school-mismatch message and the
store after the call is the store before it. -/
theorem school_mismatch_no_change (reqs : List Request) (p c h s : Nat) (row : PersonRow)
    (data : Data) (hp : selectPerson (run emptyDB reqs) p = some row)
    (hh : row.school_id = some h) (hc : selectClassSchoolId (run emptyDB reqs) c = some s)
    (hne : s ≠ h) (hd : data.asAddStudentToClassReq = some ⟨p, c⟩) :
    handleAddStudentToClass (run emptyDB reqs) data =
      (run emptyDB reqs, failure "student can only enroll in classes from one school") := by
  have hinv := Inv_run reqs emptyDB Inv_emptyDB
  have hrole : row.role = "student" := hinv.home p row hp (by rw [hh]; simp)
  have hr : row.role ≠ "teacher" := by rw [hrole]; decide
  refine handleAddStudentToClass_mismatch hd hp hr hc ⟨by rw [hh]; rfl, ?_⟩
  rw [hh]
  intro heq
  exact hne (Option.some.inj heq).symm

theorem school_mismatch_no_change_witness :
    handleAddStudentToClass (run emptyDB twoSchools) (addStudentData 2 2) =
      (run emptyDB twoSchools, failure "student can only enroll in classes from one school") :=
  school_mismatch_no_change twoSchools 2 2 1 2 ⟨2, "P1", "student", some 1⟩ _
    (rfl) rfl (rfl) (by decide) rfl

/-- C3. A home school, once set, is never changed: if person `p` has home school `h` in
a store reached from the empty one, then `p` still has home school `h` after any further
request, whatever its method and outcome (so also after a successful AddStudentToClass,
which runs the `UPDATE persons SET role, school_id` statement again), and after any
sequence of further requests. -/
theorem home_school_immutable (reqs : List Request) (p h : Nat) (row : PersonRow)
    (hp : selectPerson (run emptyDB reqs) p = some row) (hh : row.school_id = some h) :
    (∀ req : Request, ∃ row', selectPerson (dispatch (run emptyDB reqs) req).1 p = some row' ∧
      row'.school_id = some h) ∧
    (∀ reqs2 : List Request, ∃ row', selectPerson (run emptyDB (reqs ++ reqs2)) p = some row' ∧
      row'.school_id = some h) := by
  constructor
  · intro req
    obtain ⟨row', h1, hk⟩ := selectPerson_step (dispatch_step (run emptyDB reqs) req) hp
    exact ⟨row', h1, hk.2.2.2.2 h hh⟩
  · intro reqs2
    obtain ⟨row', h1, hk⟩ := selectPerson_run reqs2 (run emptyDB reqs) hp
    rw [← run_append] at h1
    exact ⟨row', h1, hk.2.2.2.2 h hh⟩

theorem home_school_immutable_witness :
    (dispatch (run emptyDB twoClasses) (addStudentToClass 2 2)).2.Status = true ∧
    ∃ row', selectPerson (dispatch (run emptyDB twoClasses) (addStudentToClass 2 2)).1 2 =
      some row' ∧ row'.school_id = some 1 :=
  ⟨rfl,
   (home_school_immutable twoClasses 2 1 ⟨2, "P1", "student", some 1⟩ (rfl) rfl).1
     (addStudentToClass 2 2)⟩

/-! ## Enrollments and class lists -/

theorem trace_append (reqs1 reqs2 : List Request) :
    ∀ db, trace db (reqs1 ++ reqs2) = trace db reqs1 ++ trace (run db reqs1) reqs2 := by
  induction reqs1 with
  | nil => intro db; rfl
  | cons req rest ih =>
    intro db
    show (req, (dispatch db req).2) :: trace (dispatch db req).1 (rest ++ reqs2) = _
    rw [ih]
    rfl

theorem handleCreateSchool_class_students (db : DB) (data : Data) :
    (handleCreateSchool db data).1.class_students = db.class_students := by
  rcases h : data.asSchool with _ | school
  · rw [handleCreateSchool_invalid h]
  · rw [handleCreateSchool_ok h]; rfl

theorem handleCreatePerson_class_students (db : DB) (data : Data) :
    (handleCreatePerson db data).1.class_students = db.class_students := by
  rcases h : data.asPerson with _ | person
  · rw [handleCreatePerson_invalid h]
  · rw [handleCreatePerson_ok h]; rfl

theorem handleCreateClass_class_students (db : DB) (data : Data) :
    (handleCreateClass db data).1.class_students = db.class_students := by
  rcases h : data.asClass with _ | cls
  · rw [handleCreateClass_invalid h]
  by_cases hs : countSchools db cls.SchoolId = 0
  · rw [handleCreateClass_noSchool h hs]
  rcases ht : selectPerson db cls.Teacher.Id with _ | row
  · rw [handleCreateClass_noTeacher h hs ht]
  by_cases hr : row.role = "student"
  · rw [handleCreateClass_student h hs ht hr]
  · rw [handleCreateClass_ok h hs ht hr]; rfl

theorem dispatch_addStudent {db : DB} {req : Request}
    (h : req.Method = AddStudentToClassMethod) :
    dispatch db req = handleAddStudentToClass db req.Data := by
  unfold dispatch
  rw [h]
  rw [if_neg (by decide), if_neg (by decide), if_neg (by decide), if_pos rfl]

theorem dispatch_class_students_of_ne {db : DB} {req : Request}
    (h : req.Method ≠ AddStudentToClassMethod) :
    (dispatch db req).1.class_students = db.class_students := by
  unfold dispatch
  split_ifs
  · exact handleCreateSchool_class_students _ _
  · exact handleCreateClass_class_students _ _
  · exact handleCreatePerson_class_students _ _
  · rw [handleWhoAmI_db]
  · rfl

theorem selectStudentClasses_append (db : DB) (c q p : Nat) :
    selectStudentClasses { db with class_students := db.class_students ++ [⟨c, q⟩] } p =
      selectStudentClasses db p ++ (if q = p then [c] else []) := by
  unfold selectStudentClasses
  by_cases h : q = p
  · simp [List.filter_append, h]
  · simp [List.filter_append, h]

/-- One request extends the class list of person `p` by the enrollment it made. -/
theorem selectStudentClasses_dispatch (db : DB) (req : Request) (p : Nat) :
    selectStudentClasses (dispatch db req).1 p =
      selectStudentClasses db p ++ (enrollmentOf p (req, (dispatch db req).2)).toList := by
  by_cases hm : req.Method = AddStudentToClassMethod
  · rw [dispatch_addStudent hm]
    unfold enrollmentOf
    simp only [hm, true_and]
    rcases h : req.Data.asAddStudentToClassReq with _ | r
    · rw [handleAddStudentToClass_invalid h]; simp [failure]
    rcases hp : selectPerson db r.StudentId with _ | row
    · rw [handleAddStudentToClass_noStudent h hp]; simp [failure]
    by_cases hr : row.role = "teacher"
    · rw [handleAddStudentToClass_teacher h hp hr]; simp [failure]
    rcases hc : selectClassSchoolId db r.ClassId with _ | s
    · rw [handleAddStudentToClass_noClass h hp hr hc]; simp [failure]
    by_cases hmm : row.school_id.isSome ∧ row.school_id ≠ some s
    · rw [handleAddStudentToClass_mismatch h hp hr hc hmm]; simp [failure]
    by_cases hin : (⟨r.ClassId, r.StudentId⟩ : ClassStudentRow) ∈ db.class_students
    · rw [handleAddStudentToClass_dup h hp hr hc hmm hin]
      simp [failure, selectStudentClasses, updateStudent]
    · rw [handleAddStudentToClass_ok h hp hr hc hmm hin]
      have e : selectStudentClasses { updateStudent db s r.StudentId with
          class_students := db.class_students ++ [⟨r.ClassId, r.StudentId⟩] } p =
          selectStudentClasses { db with
            class_students := db.class_students ++ [⟨r.ClassId, r.StudentId⟩] } p := rfl
      simp only [e, selectStudentClasses_append]
      by_cases hq : r.StudentId = p
      · simp [hq]
      · simp [hq]
  · have e : enrollmentOf p (req, (dispatch db req).2) = none := by
      unfold enrollmentOf
      simp [hm]
    rw [e]
    unfold selectStudentClasses
    rw [dispatch_class_students_of_ne hm]
    simp

theorem selectStudentClasses_run (reqs : List Request) (p : Nat) :
    ∀ db, selectStudentClasses (run db reqs) p =
      selectStudentClasses db p ++ enrollments p (trace db reqs) := by
  induction reqs with
  | nil => intro db; simp [run, trace, enrollments]
  | cons req rest ih =>
    intro db
    simp only [run, trace, ih, selectStudentClasses_dispatch, enrollments,
      List.filterMap_cons, List.append_assoc]
    cases enrollmentOf p (req, (dispatch db req).2) <;> simp

theorem selectStudentClasses_reachable (reqs : List Request) (p : Nat) :
    selectStudentClasses (run emptyDB reqs) p = enrollments p (trace emptyDB reqs) := by
  rw [selectStudentClasses_run]
  rfl

theorem selectStudentClasses_nodup {db : DB} (h : db.class_students.Nodup) (p : Nat) :
    (selectStudentClasses db p).Nodup := by
  unfold selectStudentClasses
  refine List.Nodup.map_on ?_ (h.filter _)
  intro x hx y hy hxy
  simp only [List.mem_filter, beq_iff_eq] at hx hy
  cases x; cases y
  simp only at hx hy hxy
  simp [hxy, hx.2, hy.2]

theorem mem_selectStudentClasses {db : DB} {p c : Nat} (h : c ∈ selectStudentClasses db p) :
    (⟨c, p⟩ : ClassStudentRow) ∈ db.class_students := by
  unfold selectStudentClasses at h
  simp only [List.mem_map, List.mem_filter, beq_iff_eq] at h
  obtain ⟨⟨c', p'⟩, ⟨hm, hp⟩, hc⟩ := h
  simp only at hp hc
  subst hp; subst hc
  exact hm

theorem selectTeacherClasses_sorted {db : DB}
    (h : (db.classes.map (·.id)).Pairwise (· < ·)) (p : Nat) :
    (selectTeacherClasses db p).Pairwise (· < ·) :=
  h.sublist ((List.filter_sublist _).map _)

/-- An `UPDATE persons SET role = 'student', school_id = s` on a person whose rows already
say so changes nothing. -/
theorem updateStudent_eq_self {db : DB} {s p : Nat}
    (h : ∀ r ∈ db.persons, r.id = p → r.role = "student" ∧ r.school_id = some s) :
    updateStudent db s p = db := by
  have e : db.persons.map (fun r : PersonRow =>
      if r.id == p then { r with role := "student", school_id := some s } else r) =
      db.persons := by
    conv_rhs => rw [← List.map_id db.persons]
    refine List.map_congr_left ?_
    intro r hr
    by_cases hq : r.id = p
    · obtain ⟨h1, h2⟩ := h r hr hq
      cases r
      simp only at h1 h2 hq
      simp [h1, h2, hq]
    · have : (r.id == p) = false := by simpa using hq
      simp [this]
  unfold updateStudent
  rw [e]

/-- In a store satisfying the invariants, enrolling a person in a class they are already
enrolled in is refused and changes nothing. -/
theorem handleAddStudentToClass_again {db : DB} (hinv : Inv db) {data : Data} {p c : Nat}
    (hd : data.asAddStudentToClassReq = some ⟨p, c⟩)
    (hin : (⟨c, p⟩ : ClassStudentRow) ∈ db.class_students) :
    handleAddStudentToClass db data =
      (db, failure
        "UNIQUE constraint failed: class_students.class_id, class_students.person_id") := by
  obtain ⟨s, hsel, ⟨r, hr, hid⟩, hall⟩ := hinv.enrol _ hin
  simp only at hsel hid hall
  rcases hp : selectPerson db p with _ | row
  · unfold selectPerson at hp
    rw [List.find?_eq_none] at hp
    exact absurd (by simpa using hid) (hp r hr)
  obtain ⟨h1, h2⟩ := hall row (selectPerson_mem hp) (selectPerson_id hp)
  have hrole : row.role ≠ "teacher" := by rw [h1]; decide
  have hm : ¬(row.school_id.isSome ∧ row.school_id ≠ some s) := fun hm => hm.2 h2
  rw [handleAddStudentToClass_dup hd hp hrole hsel hm hin, updateStudent_eq_self hall]

/-- C4. After any sequence of requests from the empty store, WhoAmI on a person `p`
whose role is student answers with exactly the class ids of `p`'s successful
AddStudentToClass calls, one entry per successful call; the list has no duplicates; and
an AddStudentToClass for a class already in the list answers status=false and leaves the
store as it is. -/
theorem whoAmI_student_classes (reqs : List Request) (p : Nat) (row : PersonRow)
    (data : Data) (reqPerson : Person)
    (hp : selectPerson (run emptyDB reqs) p = some row) (hrole : row.role = "student")
    (hd : data.asPerson = some reqPerson) (hid : reqPerson.Id = p) :
    handleWhoAmI (run emptyDB reqs) data =
      (run emptyDB reqs,
        ⟨true, "success", .person ⟨p, row.name, enrollments p (trace emptyDB reqs)⟩⟩) ∧
    (enrollments p (trace emptyDB reqs)).Nodup ∧
    ∀ c ∈ enrollments p (trace emptyDB reqs), ∀ d : Data,
      d.asAddStudentToClassReq = some ⟨p, c⟩ →
      (handleAddStudentToClass (run emptyDB reqs) d).1 = run emptyDB reqs ∧
      (handleAddStudentToClass (run emptyDB reqs) d).2.Status = false := by
  have hinv := Inv_run reqs emptyDB Inv_emptyDB
  subst hid
  refine ⟨?_, ?_, ?_⟩
  · rw [handleWhoAmI_ok hd hp]
    have hnt : row.role ≠ "teacher" := by rw [hrole]; decide
    rw [if_neg hnt, if_pos hrole, selectPerson_id hp, selectStudentClasses_reachable]
  · rw [← selectStudentClasses_reachable]
    exact selectStudentClasses_nodup hinv.nodup _
  · intro c hc d hdd
    rw [← selectStudentClasses_reachable] at hc
    rw [handleAddStudentToClass_again hinv hdd (mem_selectStudentClasses hc)]
    exact ⟨rfl, rfl⟩

theorem whoAmI_student_classes_witness :
    enrollments 2 (trace emptyDB repeatedEnrollment) = [1, 2] ∧
    handleWhoAmI (run emptyDB repeatedEnrollment) (idData 2) =
      (run emptyDB repeatedEnrollment,
        ⟨true, "success",
          .person ⟨2, "P1", enrollments 2 (trace emptyDB repeatedEnrollment)⟩⟩) :=
  ⟨rfl,
   (whoAmI_student_classes repeatedEnrollment 2 ⟨2, "P1", "student", some 1⟩ (idData 2)
      ⟨2, "", []⟩ (rfl) rfl rfl rfl).1⟩

/-- C5 fails as stated: a student enrolled in class 2 and then in class 1 gets the list
`[2, 1]` from AddStudentToClass and from WhoAmI, which is not ascending. -/
theorem class_lists_ascending_counterexample :
    (dispatch (run emptyDB enrollDescending) (addStudentToClass 2 1)).2 =
      ⟨true, "student added to class", .person ⟨2, "P1", [2, 1]⟩⟩ ∧
    (dispatch (run emptyDB (enrollDescending ++ [addStudentToClass 2 1])) (whoAmI 2)).2 =
      ⟨true, "success", .person ⟨2, "P1", [2, 1]⟩⟩ ∧
    ¬ List.Pairwise (· < ·) [2, 1] := by
  refine ⟨rfl, rfl, by decide⟩

/-- C5, amended. After any sequence of requests from the empty store:
(1) WhoAmI on a teacher answers with the ids of the classes taught, strictly ascending;
(2) WhoAmI on a student answers with the class ids of the student's successful
enrollments in the order the enrollments were made, without duplicates;
(3) a successful AddStudentToClass answers with the class ids of the student's earlier
successful enrollments in the order they were made, followed by the class just added,
without duplicates. -/
theorem class_lists_order (reqs : List Request) :
    (∀ (p : Nat) (row : PersonRow) (data : Data) (reqPerson : Person),
      selectPerson (run emptyDB reqs) p = some row → row.role = "teacher" →
      data.asPerson = some reqPerson → reqPerson.Id = p →
      handleWhoAmI (run emptyDB reqs) data =
        (run emptyDB reqs,
          ⟨true, "success", .person ⟨p, row.name, selectTeacherClasses (run emptyDB reqs) p⟩⟩) ∧
      (selectTeacherClasses (run emptyDB reqs) p).Pairwise (· < ·)) ∧
    (∀ (p : Nat) (row : PersonRow) (data : Data) (reqPerson : Person),
      selectPerson (run emptyDB reqs) p = some row → row.role = "student" →
      data.asPerson = some reqPerson → reqPerson.Id = p →
      respClasses (handleWhoAmI (run emptyDB reqs) data).2 =
        enrollments p (trace emptyDB reqs) ∧
      (respClasses (handleWhoAmI (run emptyDB reqs) data).2).Nodup) ∧
    (∀ (data : Data) (r : AddStudentToClassReq),
      data.asAddStudentToClassReq = some r →
      (handleAddStudentToClass (run emptyDB reqs) data).2.Status = true →
      respClasses (handleAddStudentToClass (run emptyDB reqs) data).2 =
        enrollments r.StudentId (trace emptyDB reqs) ++ [r.ClassId] ∧
      (respClasses (handleAddStudentToClass (run emptyDB reqs) data).2).Nodup) := by
  have hinv := Inv_run reqs emptyDB Inv_emptyDB
  refine ⟨?_, ?_, ?_⟩
  · intro p row data reqPerson hp hrole hd hid
    subst hid
    refine ⟨?_, selectTeacherClasses_sorted hinv.classes _⟩
    rw [handleWhoAmI_ok hd hp, if_pos hrole, selectPerson_id hp]
  · intro p row data reqPerson hp hrole hd hid
    subst hid
    have hnt : row.role ≠ "teacher" := by rw [hrole]; decide
    rw [handleWhoAmI_ok hd hp, if_neg hnt, if_pos hrole, selectPerson_id hp]
    refine ⟨selectStudentClasses_reachable reqs _, ?_⟩
    exact selectStudentClasses_nodup hinv.nodup _
  · intro data r hd hst
    rcases hp : selectPerson (run emptyDB reqs) r.StudentId with _ | row
    · rw [handleAddStudentToClass_noStudent hd hp] at hst; cases hst
    by_cases hr : row.role = "teacher"
    · rw [handleAddStudentToClass_teacher hd hp hr] at hst; cases hst
    rcases hc : selectClassSchoolId (run emptyDB reqs) r.ClassId with _ | s
    · rw [handleAddStudentToClass_noClass hd hp hr hc] at hst; cases hst
    by_cases hm : row.school_id.isSome ∧ row.school_id ≠ some s
    · rw [handleAddStudentToClass_mismatch hd hp hr hc hm] at hst; cases hst
    by_cases hin : (⟨r.ClassId, r.StudentId⟩ : ClassStudentRow) ∈
        (run emptyDB reqs).class_students
    · rw [handleAddStudentToClass_dup hd hp hr hc hm hin] at hst; cases hst
    have hinv2 := Inv_step (Step.enroll _ _ _ row hp hr hc (school_cases hm) hin) hinv
    have e := selectStudentClasses_append (updateStudent (run emptyDB reqs) s r.StudentId)
      r.ClassId r.StudentId r.StudentId
    rw [if_pos rfl] at e
    have e2 : selectStudentClasses (updateStudent (run emptyDB reqs) s r.StudentId)
        r.StudentId = selectStudentClasses (run emptyDB reqs) r.StudentId := rfl
    rw [e2, selectStudentClasses_reachable] at e
    rw [handleAddStudentToClass_ok hd hp hr hc hm hin]
    refine ⟨e, ?_⟩
    exact selectStudentClasses_nodup hinv2.nodup _

theorem class_lists_order_witness :
    (selectTeacherClasses (run emptyDB enrollDescending) 1 = [1, 2] ∧
      (selectTeacherClasses (run emptyDB enrollDescending) 1).Pairwise (· < ·)) ∧
    respClasses (handleWhoAmI (run emptyDB (enrollDescending ++ [addStudentToClass 2 1]))
      (idData 2)).2 =
      enrollments 2 (trace emptyDB (enrollDescending ++ [addStudentToClass 2 1])) ∧
    respClasses (handleAddStudentToClass (run emptyDB enrollDescending)
      (addStudentData 2 1)).2 = enrollments 2 (trace emptyDB enrollDescending) ++ [1] ∧
    enrollments 2 (trace emptyDB enrollDescending) = [2] :=
  ⟨⟨rfl, ((class_lists_order enrollDescending).1 1 ⟨1, "T1", "teacher", none⟩ (idData 1)
      ⟨1, "", []⟩ rfl rfl rfl rfl).2⟩,
   ((class_lists_order (enrollDescending ++ [addStudentToClass 2 1])).2.1 2
      ⟨2, "P1", "student", some 1⟩ (idData 2) ⟨2, "", []⟩ rfl rfl rfl rfl).1,
   ((class_lists_order enrollDescending).2.2 (addStudentData 2 1) ⟨2, 1⟩ rfl rfl).1,
   rfl⟩

/-! ## CreateClass followed by WhoAmI -/

/-- C6. In every store reached from the empty one, when CreateClass answers status=true
its response carries the request's class with a new id `c`, and a WhoAmI on the
teacher's id issued on the store it leaves answers status=true with the teacher's
stored id and name and with a class list that contains `c` and consists of exactly
the ids of the classes whose teacher_id is that person. -/
theorem createClass_whoAmI_roundtrip (reqs : List Request) (data whoData : Data)
    (cls : Class) (reqPerson : Person) (hd : data.asClass = some cls)
    (hst : (handleCreateClass (run emptyDB reqs) data).2.Status = true)
    (hw : whoData.asPerson = some reqPerson) (hid : reqPerson.Id = cls.Teacher.Id) :
    ∃ (c : Nat) (row : PersonRow),
      (handleCreateClass (run emptyDB reqs) data).2 =
        ⟨true, "class created", .cls { cls with Id := c, Students := [] }⟩ ∧
      selectPerson (handleCreateClass (run emptyDB reqs) data).1 cls.Teacher.Id = some row ∧
      row.id = cls.Teacher.Id ∧
      handleWhoAmI (handleCreateClass (run emptyDB reqs) data).1 whoData =
        ((handleCreateClass (run emptyDB reqs) data).1,
          ⟨true, "success", .person ⟨row.id, row.name,
            selectTeacherClasses (handleCreateClass (run emptyDB reqs) data).1
              cls.Teacher.Id⟩⟩) ∧
      c ∈ selectTeacherClasses (handleCreateClass (run emptyDB reqs) data).1 cls.Teacher.Id ∧
      ∀ x, x ∈ selectTeacherClasses (handleCreateClass (run emptyDB reqs) data).1
          cls.Teacher.Id ↔
        ∃ r ∈ (handleCreateClass (run emptyDB reqs) data).1.classes,
          r.teacher_id = cls.Teacher.Id ∧ r.id = x := by
  by_cases hs : countSchools (run emptyDB reqs) cls.SchoolId = 0
  · rw [handleCreateClass_noSchool hd hs] at hst; cases hst
  rcases ht : selectPerson (run emptyDB reqs) cls.Teacher.Id with _ | row0
  · rw [handleCreateClass_noTeacher hd hs ht] at hst; cases hst
  by_cases hr : row0.role = "student"
  · rw [handleCreateClass_student hd hs ht hr] at hst; cases hst
  rw [handleCreateClass_ok hd hs ht hr]
  have e : selectPerson (insertClass (updateTeacher (run emptyDB reqs) cls.Teacher.Id)
      cls.Name cls.SchoolId cls.Teacher.Id).1 cls.Teacher.Id =
      some { row0 with role := "teacher" } := by
    have e1 : selectPerson (insertClass (updateTeacher (run emptyDB reqs) cls.Teacher.Id)
        cls.Name cls.SchoolId cls.Teacher.Id).1 cls.Teacher.Id =
        selectPerson (updateTeacher (run emptyDB reqs) cls.Teacher.Id) cls.Teacher.Id := rfl
    rw [e1, selectPerson_updateTeacher, ht]
    simp [selectPerson_id ht]
  refine ⟨_, _, rfl, e, (show row0.id = cls.Teacher.Id from selectPerson_id ht), ?_, ?_, ?_⟩
  · have hreq : selectPerson (insertClass (updateTeacher (run emptyDB reqs) cls.Teacher.Id)
        cls.Name cls.SchoolId cls.Teacher.Id).1 reqPerson.Id =
        some { row0 with role := "teacher" } := by rw [hid]; exact e
    rw [handleWhoAmI_ok hw hreq, if_pos rfl]
    simp only [selectPerson_id ht]
  · simp [selectTeacherClasses, insertClass]
  · intro x
    simp only [selectTeacherClasses, List.mem_map, List.mem_filter, beq_iff_eq]
    constructor
    · rintro ⟨r, ⟨hm, ht⟩, hx⟩
      exact ⟨r, hm, ht, hx⟩
    · rintro ⟨r, hm, ht, hx⟩
      exact ⟨r, ⟨hm, ht⟩, hx⟩

theorem createClass_whoAmI_roundtrip_witness :
    ∃ (c : Nat) (row : PersonRow),
      (handleCreateClass (run emptyDB [createSchool "school_1", createPerson "teacher_1"])
        (classData "class_1" 1 ⟨1, "teacher_1", []⟩)).2 =
        ⟨true, "class created", .cls ⟨c, "class_1", 1, ⟨1, "teacher_1", []⟩, []⟩⟩ ∧
      selectPerson (handleCreateClass
        (run emptyDB [createSchool "school_1", createPerson "teacher_1"])
        (classData "class_1" 1 ⟨1, "teacher_1", []⟩)).1 1 = some row ∧
      row.id = 1 ∧
      handleWhoAmI (handleCreateClass
        (run emptyDB [createSchool "school_1", createPerson "teacher_1"])
        (classData "class_1" 1 ⟨1, "teacher_1", []⟩)).1 (idData 1) =
        ((handleCreateClass (run emptyDB [createSchool "school_1", createPerson "teacher_1"])
          (classData "class_1" 1 ⟨1, "teacher_1", []⟩)).1,
          ⟨true, "success", .person ⟨row.id, row.name,
            selectTeacherClasses (handleCreateClass
              (run emptyDB [createSchool "school_1", createPerson "teacher_1"])
              (classData "class_1" 1 ⟨1, "teacher_1", []⟩)).1 1⟩⟩) ∧
      c ∈ selectTeacherClasses (handleCreateClass
        (run emptyDB [createSchool "school_1", createPerson "teacher_1"])
        (classData "class_1" 1 ⟨1, "teacher_1", []⟩)).1 1 ∧
      ∀ x, x ∈ selectTeacherClasses (handleCreateClass
          (run emptyDB [createSchool "school_1", createPerson "teacher_1"])
          (classData "class_1" 1 ⟨1, "teacher_1", []⟩)).1 1 ↔
        ∃ r ∈ (handleCreateClass
          (run emptyDB [createSchool "school_1", createPerson "teacher_1"])
          (classData "class_1" 1 ⟨1, "teacher_1", []⟩)).1.classes,
          r.teacher_id = 1 ∧ r.id = x :=
  createClass_whoAmI_roundtrip [createSchool "school_1", createPerson "teacher_1"]
    (classData "class_1" 1 ⟨1, "teacher_1", []⟩) (idData 1)
    ⟨0, "class_1", 1, ⟨1, "teacher_1", []⟩, []⟩ ⟨1, "", []⟩ rfl (rfl) rfl rfl

/-! ## Identifier issue -/

theorem maxId_append (l : List Nat) (x : Nat) : maxId (l ++ [x]) = max (maxId l) x := by
  induction l with
  | nil => simp [maxId]
  | cons a t ih =>
    have e : maxId (a :: t ++ [x]) = max a (maxId (t ++ [x])) := rfl
    have e' : maxId (a :: t) = max a (maxId t) := rfl
    rw [e, e', ih, max_assoc]

theorem schoolsTop_insertSchool (db : DB) (name : String) :
    (insertSchool db name).2 = schoolsTop db + 1 ∧
    schoolsTop (insertSchool db name).1 = schoolsTop db + 1 := by
  refine ⟨rfl, ?_⟩
  show max (autoincrement db.seq_schools (db.schools.map (·.id)))
    (maxId ((db.schools ++
      [(⟨autoincrement db.seq_schools (db.schools.map (·.id)), name⟩ : SchoolRow)]).map
      (fun r : SchoolRow => r.id))) = schoolsTop db + 1
  rw [List.map_append, List.map_cons, List.map_nil, maxId_append]
  unfold schoolsTop autoincrement
  dsimp only
  omega

theorem personsTop_insertPerson (db : DB) (name : String) :
    (insertPerson db name).2 = personsTop db + 1 ∧
    personsTop (insertPerson db name).1 = personsTop db + 1 := by
  refine ⟨rfl, ?_⟩
  show max (autoincrement db.seq_persons (db.persons.map (·.id)))
    (maxId ((db.persons ++
      [(⟨autoincrement db.seq_persons (db.persons.map (·.id)), name, "", none⟩ :
        PersonRow)]).map
      (fun r : PersonRow => r.id))) = personsTop db + 1
  rw [List.map_append, List.map_cons, List.map_nil, maxId_append]
  unfold personsTop autoincrement
  dsimp only
  omega

theorem personsTop_updateTeacher (db : DB) (t : Nat) :
    personsTop (updateTeacher db t) = personsTop db := by
  unfold personsTop updateTeacher
  simp only [List.map_map]
  congr 2
  exact List.map_congr_left (fun r _ => updateTeacher_fn_id t r)

theorem personsTop_updateStudent (db : DB) (s p : Nat) :
    personsTop (updateStudent db s p) = personsTop db := by
  unfold personsTop updateStudent
  simp only [List.map_map]
  congr 2
  exact List.map_congr_left (fun r _ => updateStudent_fn_id s p r)

theorem handleCreateClass_tops (db : DB) (data : Data) :
    schoolsTop (handleCreateClass db data).1 = schoolsTop db ∧
    personsTop (handleCreateClass db data).1 = personsTop db := by
  rcases h : data.asClass with _ | cls
  · rw [handleCreateClass_invalid h]; exact ⟨rfl, rfl⟩
  by_cases hs : countSchools db cls.SchoolId = 0
  · rw [handleCreateClass_noSchool h hs]; exact ⟨rfl, rfl⟩
  rcases ht : selectPerson db cls.Teacher.Id with _ | row
  · rw [handleCreateClass_noTeacher h hs ht]; exact ⟨rfl, rfl⟩
  by_cases hr : row.role = "student"
  · rw [handleCreateClass_student h hs ht hr]; exact ⟨rfl, rfl⟩
  · rw [handleCreateClass_ok h hs ht hr]
    exact ⟨rfl, personsTop_updateTeacher db _⟩

theorem handleAddStudentToClass_tops (db : DB) (data : Data) :
    schoolsTop (handleAddStudentToClass db data).1 = schoolsTop db ∧
    personsTop (handleAddStudentToClass db data).1 = personsTop db := by
  rcases h : data.asAddStudentToClassReq with _ | req
  · rw [handleAddStudentToClass_invalid h]; exact ⟨rfl, rfl⟩
  rcases hp : selectPerson db req.StudentId with _ | row
  · rw [handleAddStudentToClass_noStudent h hp]; exact ⟨rfl, rfl⟩
  by_cases hr : row.role = "teacher"
  · rw [handleAddStudentToClass_teacher h hp hr]; exact ⟨rfl, rfl⟩
  rcases hc : selectClassSchoolId db req.ClassId with _ | s
  · rw [handleAddStudentToClass_noClass h hp hr hc]; exact ⟨rfl, rfl⟩
  by_cases hm : row.school_id.isSome ∧ row.school_id ≠ some s
  · rw [handleAddStudentToClass_mismatch h hp hr hc hm]; exact ⟨rfl, rfl⟩
  by_cases hin : (⟨req.ClassId, req.StudentId⟩ : ClassStudentRow) ∈ db.class_students
  · rw [handleAddStudentToClass_dup h hp hr hc hm hin]
    exact ⟨rfl, personsTop_updateStudent db _ _⟩
  · rw [handleAddStudentToClass_ok h hp hr hc hm hin]
    exact ⟨rfl, personsTop_updateStudent db _ _⟩

/-- A request either creates no school and leaves the largest school id alone, or
creates the school whose id is the next one. -/
theorem createdSchoolId_dispatch (db : DB) (req : Request) :
    (createdSchoolId (req, (dispatch db req).2) = none ∧
      schoolsTop (dispatch db req).1 = schoolsTop db) ∨
    (createdSchoolId (req, (dispatch db req).2) = some (schoolsTop db + 1) ∧
      schoolsTop (dispatch db req).1 = schoolsTop db + 1) := by
  by_cases hm : req.Method = CreateSchoolMethod
  · have e : dispatch db req = handleCreateSchool db req.Data := by
      unfold dispatch; rw [if_pos hm]
    rw [e]
    rcases h : req.Data.asSchool with _ | school
    · left
      rw [handleCreateSchool_invalid h]
      exact ⟨by simp [createdSchoolId, failure], rfl⟩
    · right
      rw [handleCreateSchool_ok h]
      exact ⟨by simp [createdSchoolId, hm, (schoolsTop_insertSchool db school.Name).1],
        (schoolsTop_insertSchool db school.Name).2⟩
  · left
    refine ⟨by simp [createdSchoolId, hm], ?_⟩
    unfold dispatch
    rw [if_neg hm]
    split_ifs
    · exact (handleCreateClass_tops _ _).1
    · rcases h : req.Data.asPerson with _ | person
      · rw [handleCreatePerson_invalid h]
      · rw [handleCreatePerson_ok h]; rfl
    · exact (handleAddStudentToClass_tops _ _).1
    · rw [handleWhoAmI_db]
    · rfl

/-- A request either creates no person and leaves the largest person id alone, or
creates the person whose id is the next one. -/
theorem createdPersonId_dispatch (db : DB) (req : Request) :
    (createdPersonId (req, (dispatch db req).2) = none ∧
      personsTop (dispatch db req).1 = personsTop db) ∨
    (createdPersonId (req, (dispatch db req).2) = some (personsTop db + 1) ∧
      personsTop (dispatch db req).1 = personsTop db + 1) := by
  by_cases hm : req.Method = CreatePersonMethod
  · have e : dispatch db req = handleCreatePerson db req.Data := by
      unfold dispatch
      rw [hm, if_neg (by decide), if_neg (by decide), if_pos rfl]
    rw [e]
    rcases h : req.Data.asPerson with _ | person
    · left
      rw [handleCreatePerson_invalid h]
      exact ⟨by simp [createdPersonId, failure], rfl⟩
    · right
      rw [handleCreatePerson_ok h]
      exact ⟨by simp [createdPersonId, hm, (personsTop_insertPerson db person.Name).1],
        (personsTop_insertPerson db person.Name).2⟩
  · left
    refine ⟨by simp [createdPersonId, hm], ?_⟩
    unfold dispatch
    split_ifs
    · rcases h : req.Data.asSchool with _ | school
      · rw [handleCreateSchool_invalid h]
      · rw [handleCreateSchool_ok h]; rfl
    · exact (handleCreateClass_tops _ _).2
    · exact (handleAddStudentToClass_tops _ _).2
    · rw [handleWhoAmI_db]
    · rfl

theorem createdSchoolIds_trace (reqs : List Request) :
    ∀ db, createdSchoolIds (trace db reqs) =
      List.range' (schoolsTop db + 1) (createdSchoolIds (trace db reqs)).length := by
  induction reqs with
  | nil => intro db; rfl
  | cons req rest ih =>
    intro db
    have e : createdSchoolIds (trace db (req :: rest)) =
        (createdSchoolId (req, (dispatch db req).2)).toList ++
          createdSchoolIds (trace (dispatch db req).1 rest) := by
      show List.filterMap _ (_ :: _) = _
      rw [List.filterMap_cons]
      cases createdSchoolId (req, (dispatch db req).2) <;> rfl
    rcases createdSchoolId_dispatch db req with ⟨h1, h2⟩ | ⟨h1, h2⟩
    · rw [e, h1]
      have := ih (dispatch db req).1
      rw [h2] at this
      simpa using this
    · rw [e, h1]
      have := ih (dispatch db req).1
      rw [h2] at this
      simp only [Option.toList_some, List.singleton_append, List.length_cons,
        List.range'_succ]
      rw [← this]

theorem createdPersonIds_trace (reqs : List Request) :
    ∀ db, createdPersonIds (trace db reqs) =
      List.range' (personsTop db + 1) (createdPersonIds (trace db reqs)).length := by
  induction reqs with
  | nil => intro db; rfl
  | cons req rest ih =>
    intro db
    have e : createdPersonIds (trace db (req :: rest)) =
        (createdPersonId (req, (dispatch db req).2)).toList ++
          createdPersonIds (trace (dispatch db req).1 rest) := by
      show List.filterMap _ (_ :: _) = _
      rw [List.filterMap_cons]
      cases createdPersonId (req, (dispatch db req).2) <;> rfl
    rcases createdPersonId_dispatch db req with ⟨h1, h2⟩ | ⟨h1, h2⟩
    · rw [e, h1]
      have := ih (dispatch db req).1
      rw [h2] at this
      simpa using this
    · rw [e, h1]
      have := ih (dispatch db req).1
      rw [h2] at this
      simp only [Option.toList_some, List.singleton_append, List.length_cons,
        List.range'_succ]
      rw [← this]

/-- C7. For every sequence of requests, on whatever store it starts, the ids returned
by the successful CreateSchool calls are strictly increasing in call order (so none is
repeated), and so are the ids returned by the successful CreatePerson calls.  From the
empty store they are 1, 2, 3, ... in call order: the first school and the first person
get id 1 and the second person id 2 (as in `TestSimple_1`).  The record returned by a
successful CreateSchool or CreatePerson carries the name given in the request. -/
theorem ids_strictly_increasing (db : DB) (reqs : List Request) :
    (createdSchoolIds (trace db reqs)).Pairwise (· < ·) ∧
    (createdPersonIds (trace db reqs)).Pairwise (· < ·) ∧
    createdSchoolIds (trace emptyDB reqs) =
      List.range' 1 (createdSchoolIds (trace emptyDB reqs)).length ∧
    createdPersonIds (trace emptyDB reqs) =
      List.range' 1 (createdPersonIds (trace emptyDB reqs)).length ∧
    createdSchoolIds (trace emptyDB testSimple1) = [1] ∧
    createdPersonIds (trace emptyDB testSimple1) = [1, 2] ∧
    (∀ (data : Data) (school : School), data.asSchool = some school →
      (handleCreateSchool db data).2 =
        ⟨true, "school created", .school ⟨schoolsTop db + 1, school.Name, []⟩⟩) ∧
    (∀ (data : Data) (person : Person), data.asPerson = some person →
      (handleCreatePerson db data).2 =
        ⟨true, "person created", .person ⟨personsTop db + 1, person.Name, []⟩⟩) := by
  refine ⟨?_, ?_, createdSchoolIds_trace reqs emptyDB, createdPersonIds_trace reqs emptyDB,
    rfl, rfl, ?_, ?_⟩
  · rw [createdSchoolIds_trace reqs db]; exact List.pairwise_lt_range' _ _
  · rw [createdPersonIds_trace reqs db]; exact List.pairwise_lt_range' _ _
  · intro data school h
    rw [handleCreateSchool_ok h]
    rfl
  · intro data person h
    rw [handleCreatePerson_ok h]
    rfl

theorem ids_strictly_increasing_witness :
    (handleCreateSchool emptyDB (nameData "school_1")).2 =
      ⟨true, "school created", .school ⟨1, "school_1", []⟩⟩ ∧
    (handleCreatePerson (run emptyDB [createPerson "teacher_1"]) (nameData "student_1")).2 =
      ⟨true, "person created", .person ⟨2, "student_1", []⟩⟩ :=
  ⟨(ids_strictly_increasing emptyDB []).2.2.2.2.2.2.1 (nameData "school_1") _ rfl,
   (ids_strictly_increasing (run emptyDB [createPerson "teacher_1"]) []).2.2.2.2.2.2.2
     (nameData "student_1") _ rfl⟩

/-! ## Validation order -/

theorem countSchools_eq_zero (db : DB) (id : Nat) :
    countSchools db id = 0 ↔ db.schools.any (fun r => r.id == id) = false := by
  unfold countSchools
  rw [List.length_eq_zero, List.filter_eq_nil_iff]
  simp

/-- C8. The first violated rule determines the reported error: when a CreateClass
request violates at least one of its rules (school exists, teacher exists, teacher is
not a student), or an AddStudentToClass request at least one of its rules (student
exists, student is not a teacher, class exists, home school matches), the handler
answers status=false with the message of the earliest violated rule in that order, and
leaves the store as it is. -/
theorem first_violated_rule (db : DB) (data : Data) (msg : String) :
    (∀ cls : Class, data.asClass = some cls →
      firstViolated (createClassRules db cls) = some msg →
      handleCreateClass db data = (db, failure msg)) ∧
    (∀ req : AddStudentToClassReq, data.asAddStudentToClassReq = some req →
      firstViolated (addStudentRules db req) = some msg →
      handleAddStudentToClass db data = (db, failure msg)) := by
  constructor
  · intro cls hd hv
    by_cases hs : countSchools db cls.SchoolId = 0
    · rw [handleCreateClass_noSchool hd hs]
      have := (countSchools_eq_zero _ _).1 hs
      simp [firstViolated, createClassRules, this] at hv
      rw [hv]
    have hs' : db.schools.any (fun r => r.id == cls.SchoolId) = true := by
      rcases hb : db.schools.any (fun r => r.id == cls.SchoolId) with _ | _
      · exact absurd ((countSchools_eq_zero _ _).2 hb) hs
      · rfl
    rcases ht : selectPerson db cls.Teacher.Id with _ | row
    · rw [handleCreateClass_noTeacher hd hs ht]
      simp [firstViolated, createClassRules, hs', ht] at hv
      rw [hv]
    by_cases hr : row.role = "student"
    · rw [handleCreateClass_student hd hs ht hr]
      simp [firstViolated, createClassRules, hs', ht, hr] at hv
      rw [hv]
    · simp [firstViolated, createClassRules, hs', ht, hr] at hv
  · intro req hd hv
    rcases hp : selectPerson db req.StudentId with _ | row
    · rw [handleAddStudentToClass_noStudent hd hp]
      simp [firstViolated, addStudentRules, hp] at hv
      rw [hv]
    by_cases hr : row.role = "teacher"
    · rw [handleAddStudentToClass_teacher hd hp hr]
      simp [firstViolated, addStudentRules, hp, hr] at hv
      rw [hv]
    rcases hc : selectClassSchoolId db req.ClassId with _ | s
    · rw [handleAddStudentToClass_noClass hd hp hr hc]
      simp [firstViolated, addStudentRules, hp, hr, hc] at hv
      rw [hv]
    rcases hh : row.school_id with _ | h
    · simp [firstViolated, addStudentRules, homeSchoolDiffers, hp, hr, hc, hh] at hv
    · simp [firstViolated, addStudentRules, homeSchoolDiffers, hp, hr, hc, hh] at hv
      have hm : row.school_id.isSome ∧ row.school_id ≠ some s := by
        rw [hh]
        exact ⟨rfl, fun e => hv.1 (Option.some.inj e)⟩
      rw [handleAddStudentToClass_mismatch hd hp hr hc hm, hv.2]

theorem first_violated_rule_witness :
    handleCreateClass emptyDB (classData "C1" 5 ⟨9, "T1", []⟩) =
      (emptyDB, failure "school not found") ∧
    handleAddStudentToClass (run emptyDB roleScenario) (addStudentData 1 7) =
      (run emptyDB roleScenario, failure "person is a teacher, cannot be a student") :=
  ⟨(first_violated_rule emptyDB (classData "C1" 5 ⟨9, "T1", []⟩) "school not found").1
      ⟨0, "C1", 5, ⟨9, "T1", []⟩, []⟩ rfl (rfl),
   (first_violated_rule (run emptyDB roleScenario) (addStudentData 1 7)
      "person is a teacher, cannot be a student").2 ⟨1, 7⟩ rfl (rfl)⟩

/-! ## CreateSchool and the name -/

/-- C9 fails as stated: on the empty store a `/school/create` request whose name is the
empty string (a missing name decodes to the same `School`) answers status=true and
inserts the school row `(1, "")`. -/
theorem createSchool_empty_name_counterexample :
    dispatch emptyDB ⟨CreateSchoolMethod, nameData ""⟩ =
      (⟨[⟨1, ""⟩], [], [], [], 1, 0, 0⟩, ⟨true, "school created", .school ⟨1, "", []⟩⟩) := by
  rfl

/-- C9, amended. CreateSchool does not look at the name: on every store, a
`/school/create` request whose payload decodes to a `School` answers status=true with
the new id and that name, and appends one school row with that id and name, also when
the name is empty or missing; when the payload does not decode, the answer is
status=false `invalid school data` and the store is left as it is. -/
theorem createSchool_any_name (db : DB) (data : Data) :
    (∀ school : School, data.asSchool = some school →
      (handleCreateSchool db data).2 =
        ⟨true, "school created", .school ⟨schoolsTop db + 1, school.Name, []⟩⟩ ∧
      (handleCreateSchool db data).1.schools =
        db.schools ++ [⟨schoolsTop db + 1, school.Name⟩]) ∧
    (data.asSchool = none →
      handleCreateSchool db data = (db, failure "invalid school data")) := by
  constructor
  · intro school h
    rw [handleCreateSchool_ok h]
    exact ⟨rfl, rfl⟩
  · intro h
    exact handleCreateSchool_invalid h

theorem createSchool_any_name_witness :
    (handleCreateSchool emptyDB (nameData "")).2 =
        ⟨true, "school created", .school ⟨1, "", []⟩⟩ ∧
      (handleCreateSchool emptyDB (nameData "")).1.schools = [⟨1, ""⟩] :=
  (createSchool_any_name emptyDB (nameData "")).1 ⟨0, "", []⟩ rfl

/-! ## The connection loop -/

theorem handleConnection_cons_none {unmarshal : String → Option Request} {m : String}
    (h : unmarshal m = none) (db : DB) (rest : List String) :
    handleConnection unmarshal db (m :: rest) =
      ((handleConnection unmarshal db rest).1,
        failure "invalid json" :: (handleConnection unmarshal db rest).2) := by
  simp only [handleConnection, h]

theorem handleConnection_cons_some {unmarshal : String → Option Request} {m : String}
    {req : Request} (h : unmarshal m = some req) (db : DB) (rest : List String) :
    handleConnection unmarshal db (m :: rest) =
      ((handleConnection unmarshal (dispatch db req).1 rest).1,
        (dispatch db req).2 :: (handleConnection unmarshal (dispatch db req).1 rest).2) := by
  simp only [handleConnection, h]

theorem handleConnection_append (unmarshal : String → Option Request)
    (lines1 lines2 : List String) :
    ∀ db, handleConnection unmarshal db (lines1 ++ lines2) =
      ((handleConnection unmarshal (handleConnection unmarshal db lines1).1 lines2).1,
        (handleConnection unmarshal db lines1).2 ++
          (handleConnection unmarshal (handleConnection unmarshal db lines1).1 lines2).2) := by
  induction lines1 with
  | nil => intro db; rfl
  | cons m rest ih =>
    intro db
    rcases h : unmarshal m with _ | req
    · rw [List.cons_append, handleConnection_cons_none h, ih, handleConnection_cons_none h]
      rfl
    · rw [List.cons_append, handleConnection_cons_some h, ih, handleConnection_cons_some h]
      rfl

theorem handleConnection_length (unmarshal : String → Option Request) (lines : List String) :
    ∀ db, (handleConnection unmarshal db lines).2.length = lines.length := by
  induction lines with
  | nil => intro db; rfl
  | cons m rest ih =>
    intro db
    rcases h : unmarshal m with _ | req
    · simp only [handleConnection, h, List.length_cons, ih]
    · simp only [handleConnection, h, List.length_cons, ih]

/-- C10. A failing request does not end the loop.  For every list of messages read
before the first read error, `handleConnection` writes exactly one response per message
(1), and the messages are answered one after the other, each on the store its
predecessors left and whatever the outcome of those: handling `lines1 ++ lines2` is
handling `lines1` and then `lines2` (2), where a message that is not valid JSON gets
`invalid json` and no store change (3), and any other message gets the response of its
handler (4), which for a method outside the five-entry table is `unknown route` with no
store change (5).  With no message left, that is when the next read fails, the loop
ends (6). -/
theorem connection_answers_every_line (unmarshal : String → Option Request) (db : DB)
    (lines : List String) :
    (handleConnection unmarshal db lines).2.length = lines.length ∧
    (∀ lines1 lines2 : List String, lines = lines1 ++ lines2 →
      handleConnection unmarshal db lines =
        ((handleConnection unmarshal (handleConnection unmarshal db lines1).1 lines2).1,
          (handleConnection unmarshal db lines1).2 ++
            (handleConnection unmarshal (handleConnection unmarshal db lines1).1 lines2).2)) ∧
    (∀ message : String, unmarshal message = none →
      handleConnection unmarshal db [message] = (db, [failure "invalid json"])) ∧
    (∀ (message : String) (req : Request), unmarshal message = some req →
      handleConnection unmarshal db [message] =
        ((dispatch db req).1, [(dispatch db req).2])) ∧
    (∀ req : Request,
      req.Method ∉ [CreateSchoolMethod, CreateClassMethod, CreatePersonMethod,
        AddStudentToClassMethod, WhoAmIMethod] →
      dispatch db req = (db, failure "unknown route")) ∧
    handleConnection unmarshal db [] = (db, []) := by
  refine ⟨handleConnection_length _ _ _, ?_, ?_, ?_, ?_, rfl⟩
  · intro lines1 lines2 h
    rw [h]
    exact handleConnection_append _ _ _ _
  · intro message h
    simp only [handleConnection, h]
  · intro message req h
    simp only [handleConnection, h]
  · intro req h
    simp only [List.mem_cons, List.mem_singleton, List.not_mem_nil, or_false, not_or] at h
    unfold dispatch
    rw [if_neg h.1, if_neg h.2.1, if_neg h.2.2.1, if_neg h.2.2.2.1, if_neg h.2.2.2.2]

theorem connection_answers_every_line_witness :
    handleConnection sampleUnmarshal emptyDB
        (["not json\n", "no such route\n", "who am i 1\n"] ++ ["create school S1\n"]) =
      (⟨[⟨1, "S1"⟩], [], [], [], 1, 0, 0⟩,
        [failure "invalid json", failure "unknown route", failure "person not found",
          ⟨true, "school created", .school ⟨1, "S1", []⟩⟩]) ∧
    dispatch emptyDB ⟨"/no/such/route", nameData ""⟩ = (emptyDB, failure "unknown route") ∧
    handleConnection sampleUnmarshal emptyDB ["not json\n"] =
      (emptyDB, [failure "invalid json"]) :=
  ⟨((connection_answers_every_line sampleUnmarshal emptyDB
      (["not json\n", "no such route\n", "who am i 1\n"] ++ ["create school S1\n"])).2.1
      _ _ rfl).trans (rfl),
   (connection_answers_every_line sampleUnmarshal emptyDB []).2.2.2.2.1
      ⟨"/no/such/route", nameData ""⟩ (by decide),
   (connection_answers_every_line sampleUnmarshal emptyDB []).2.2.1 "not json\n" (by decide)⟩

end TcpServer
